import Mathlib

/-!
# Verification of the `TempoAgent` look-ahead metronome scheduler

Shallow embedding of the `TempoAgent` class (file `src/unnamed/part_007`,
lines 369-821) of the metronome repository, together with proofs about the
testable properties stated in the specification.

Modelling conventions:
* JavaScript numbers are modelled as `ℚ` where the code does real arithmetic
  (BPM values, audio-clock times, volumes) and as `ℤ` where the code only
  ever stores and compares integers (counters, measures, subdivision,
  numerator, crossBeats, measureInterval).  The JS `%` operator agrees with
  `Int.emod` whenever the dividend is non-negative, which is the case at the
  single use site (`measuresElapsed = currentMeasure - 1 ≥ 0`).
* A method that can `throw` is embedded with result type
  `Except TAError _` (or a `_ × Option TAError` pair when mutations made
  before the throw must stay visible).  In `TempoAgent` every throwing
  setter throws before mutating, so the state after a thrown setter call is
  the original state.
* The browser `AudioContext` is reduced to the facts the scheduler observes:
  whether the field is non-null (`hasAudioContext`) and the current clock
  reading, passed in as an explicit `now` argument.  Whether acquisition or
  resumption of the clock fails is supplied by a `ClockOutcome` oracle.
* The wall-clock bookkeeping (`lastScheduleTime`, adaptive timeout interval)
  only affects when the control loop runs, never the scheduled state, and is
  not represented; one execution of the body of the inner `while` loop of
  `scheduleNotes` (schedule one note, advance) is the step `tickStep`, and
  one execution of the polyrhythm loop body is `advancePolyrhythmNote`.
-/

namespace Metronome

set_option maxRecDepth 400000

/-- `TimeSignature` from `src/unnamed/part_010`. -/
structure TimeSignature where
  numerator : ℤ
  denominator : ℤ
deriving DecidableEq

/-- The `'sudden' | 'gradual'` union of `TempoChange.type`. -/
inductive TempoChangeType where
  | sudden
  | gradual
deriving DecidableEq

/-- `TempoChange` from `src/unnamed/part_010`. -/
structure TempoChange where
  measure : ℤ
  type : TempoChangeType
  targetBPM : ℚ
  duration : ℚ
  newTimeSignature : Option TimeSignature
deriving DecidableEq

/-- The `'up' | 'down'` union of `PracticeRamping.direction`. -/
inductive RampDirection where
  | up
  | down
deriving DecidableEq

/-- `PracticeRamping` from `src/unnamed/part_010`. -/
structure PracticeRamping where
  enabled : Bool
  startBPM : ℚ
  targetBPM : ℚ
  incrementBPM : ℚ
  measureInterval : ℤ
  direction : RampDirection
deriving DecidableEq

/-- `PolyrhythmConfig` from `src/unnamed/part_010`. -/
structure PolyrhythmConfig where
  enabled : Bool
  crossBeats : ℤ
  soundType : String
  volume : ℚ
deriving DecidableEq

/-- `TempoAgentConfig` from `src/unnamed/part_010`. -/
structure TempoAgentConfig where
  bpm : ℚ
  timeSignature : TimeSignature
  subdivision : ℤ
  schedulingLookahead : ℚ
  polyrhythm : PolyrhythmConfig
  tempoChanges : List TempoChange
  practiceRamping : PracticeRamping
deriving DecidableEq

/-- The object stored in `(this as any).gradualChange` by
`startGradualTempoChange`. -/
structure GradualChangeInfo where
  startMeasure : ℤ
  endMeasure : ℚ
  startBPM : ℚ
  targetBPM : ℚ
  bpmIncrement : ℚ
deriving DecidableEq

/-- The mutable instance state of a `TempoAgent`.

`isInitialized` models the `BaseAgent` initialized flag (the `BaseAgent`
class itself is not among the provided sources; its `requireInitialized`
guard is modelled from the spec: "Preconditions: component previously
initialized").  `hasAudioContext` models `this.audioContext !== null`, and
`schedulerRunning` models `this.schedulerId !== null`. -/
structure TempoAgentState where
  isInitialized : Bool
  isActive : Bool
  config : TempoAgentConfig
  hasAudioContext : Bool
  schedulerRunning : Bool
  nextNoteTime : ℚ
  currentMeasure : ℤ
  currentBeat : ℤ
  currentTick : ℤ
  nextPolyNoteTime : ℚ
  currentPolyBeat : ℤ
  gradualChange : Option GradualChangeInfo
deriving DecidableEq

/-- Errors thrown by `TempoAgent` methods. -/
inductive TAError where
  | invalidBPM
  | invalidSubdivision
  | audioContextInitFailed
  | audioContextNotInitialized
  | notInitialized
deriving DecidableEq

/-- The `config` built by the constructor when no overrides are passed:
`DEFAULT_BPM = 100`, `DEFAULT_TIME_SIGNATURE = 4/4`,
`DEFAULT_SUBDIVISION = 1` (from `src/unnamed/part_010`), lookahead 100 ms,
polyrhythm disabled with `crossBeats: 3`, no tempo changes, practice
ramping disabled with its constructor defaults. -/
def defaultConfig : TempoAgentConfig where
  bpm := 100
  timeSignature := ⟨4, 4⟩
  subdivision := 1
  schedulingLookahead := 100
  polyrhythm := ⟨false, 3, "click", 7/10⟩
  tempoChanges := []
  practiceRamping := ⟨false, 60, 120, 5, 8, .up⟩

/-- A freshly constructed and initialized agent (`new TempoAgent()` followed
by `await initialize()`): field initializers of the class plus the default
config. -/
def initState : TempoAgentState where
  isInitialized := true
  isActive := false
  config := defaultConfig
  hasAudioContext := false
  schedulerRunning := false
  nextNoteTime := 0
  currentMeasure := 1
  currentBeat := 0
  currentTick := 0
  nextPolyNoteTime := 0
  currentPolyBeat := 0
  gradualChange := none

/-- `setBPM` (part_007 lines 495-500): throws unless `30 ≤ bpm ≤ 300`,
otherwise mutates `config.bpm` only.  The throw happens before any
mutation. -/
def setBPM (bpm : ℚ) (s : TempoAgentState) : Except TAError TempoAgentState :=
  if bpm < 30 ∨ bpm > 300 then .error .invalidBPM
  else .ok { s with config := { s.config with bpm := bpm } }

/-- `setTimeSignature` (part_007 lines 505-510): stores the new signature
unconditionally and resets `currentBeat`/`currentTick` to 0.  There is no
validation and no throw. -/
def setTimeSignature (ts : TimeSignature) (s : TempoAgentState) : TempoAgentState :=
  { s with config := { s.config with timeSignature := ts },
           currentBeat := 0, currentTick := 0 }

/-- `setSubdivision` (part_007 lines 515-520): throws unless
`1 ≤ subdivision ≤ 8`, otherwise mutates `config.subdivision` only.  The
counters are not touched. -/
def setSubdivision (n : ℤ) (s : TempoAgentState) : Except TAError TempoAgentState :=
  if n < 1 ∨ n > 8 then .error .invalidSubdivision
  else .ok { s with config := { s.config with subdivision := n } }

/-- Argument of `setPolyrhythm`: a `Partial<PolyrhythmConfig>`. -/
structure PolyrhythmPatch where
  enabled : Option Bool
  crossBeats : Option ℤ
  soundType : Option String
  volume : Option ℚ
deriving DecidableEq

/-- The spread `{ ...this.config.polyrhythm, ...polyrhythm }`. -/
def mergePolyrhythm (p : PolyrhythmConfig) (patch : PolyrhythmPatch) : PolyrhythmConfig where
  enabled := patch.enabled.getD p.enabled
  crossBeats := patch.crossBeats.getD p.crossBeats
  soundType := patch.soundType.getD p.soundType
  volume := patch.volume.getD p.volume

/-- `setPolyrhythm` (part_007 lines 525-533): merges the patch; if an audio
context exists and the agent is active, resets the polyrhythm cursor to the
current clock reading `now`. -/
def setPolyrhythm (patch : PolyrhythmPatch) (now : ℚ) (s : TempoAgentState) : TempoAgentState :=
  let s1 := { s with config :=
    { s.config with polyrhythm := mergePolyrhythm s.config.polyrhythm patch } }
  if s1.hasAudioContext ∧ s1.isActive then
    { s1 with nextPolyNoteTime := now, currentPolyBeat := 0 }
  else s1

/-- Insert a change into a list sorted ascending by `measure`. -/
def insertByMeasure (c : TempoChange) : List TempoChange → List TempoChange
  | [] => [c]
  | d :: ds => if c.measure ≤ d.measure then c :: d :: ds else d :: insertByMeasure c ds

/-- `Array.prototype.sort((a, b) => a.measure - b.measure)`: sort ascending
by `measure`. -/
def sortByMeasure : List TempoChange → List TempoChange
  | [] => []
  | c :: cs => insertByMeasure c (sortByMeasure cs)

/-- `addTempoChange` (part_007 lines 538-545): drop any change at the same
measure, append the new change, sort ascending by measure. -/
def addTempoChange (c : TempoChange) (s : TempoAgentState) : TempoAgentState :=
  let kept := s.config.tempoChanges.filter (fun d => d.measure ≠ c.measure)
  { s with config := { s.config with tempoChanges := sortByMeasure (kept ++ [c]) } }

/-- `removeTempoChange` (part_007 lines 550-552). -/
def removeTempoChange (m : ℤ) (s : TempoAgentState) : TempoAgentState :=
  let kept := s.config.tempoChanges.filter (fun d => d.measure ≠ m)
  { s with config := { s.config with tempoChanges := kept } }

/-- Argument of `setPracticeRamping`: a `Partial<PracticeRamping>`. -/
structure PracticeRampingPatch where
  enabled : Option Bool
  startBPM : Option ℚ
  targetBPM : Option ℚ
  incrementBPM : Option ℚ
  measureInterval : Option ℤ
  direction : Option RampDirection
deriving DecidableEq

/-- The spread `{ ...this.config.practiceRamping, ...ramping }`. -/
def mergeRamping (r : PracticeRamping) (patch : PracticeRampingPatch) : PracticeRamping where
  enabled := patch.enabled.getD r.enabled
  startBPM := patch.startBPM.getD r.startBPM
  targetBPM := patch.targetBPM.getD r.targetBPM
  incrementBPM := patch.incrementBPM.getD r.incrementBPM
  measureInterval := patch.measureInterval.getD r.measureInterval
  direction := patch.direction.getD r.direction

/-- `setPracticeRamping` (part_007 lines 557-559). -/
def setPracticeRamping (patch : PracticeRampingPatch) (s : TempoAgentState) : TempoAgentState :=
  let merged := mergeRamping s.config.practiceRamping patch
  { s with config := { s.config with practiceRamping := merged } }

/-- `startPracticeRamping` (part_007 lines 564-570): if ramping is enabled,
seed `config.bpm` with `startBPM` (no validation). -/
def startPracticeRamping (s : TempoAgentState) : TempoAgentState :=
  if s.config.practiceRamping.enabled then
    { s with config := { s.config with bpm := s.config.practiceRamping.startBPM } }
  else s

/-- `checkPracticeRamping` (part_007 lines 734-755): at a measure boundary,
if the number of elapsed measures is a positive multiple of
`measureInterval`, step `config.bpm` toward `targetBPM` by `incrementBPM`,
clamped at the target, respecting `direction`. -/
def checkPracticeRamping (s : TempoAgentState) : TempoAgentState :=
  let ramping := s.config.practiceRamping
  let measuresElapsed := s.currentMeasure - 1
  if measuresElapsed > 0 ∧ measuresElapsed % ramping.measureInterval = 0 then
    let currentBPM := s.config.bpm
    let newBPM :=
      if ramping.direction = .up ∧ currentBPM < ramping.targetBPM then
        min (currentBPM + ramping.incrementBPM) ramping.targetBPM
      else if ramping.direction = .down ∧ currentBPM > ramping.targetBPM then
        max (currentBPM - ramping.incrementBPM) ramping.targetBPM
      else currentBPM
    if newBPM ≠ currentBPM then
      { s with config := { s.config with bpm := newBPM } }
    else s
  else s

/-- `startGradualTempoChange` (part_007 lines 711-729): computes the
per-measure increment and stores the transition data in
`(this as any).gradualChange`.  Note that it does not modify `config.bpm`,
and no other method of the class ever reads `gradualChange`. -/
def startGradualTempoChange (change : TempoChange) (s : TempoAgentState) : TempoAgentState :=
  let startBPM := s.config.bpm
  let targetBPM := change.targetBPM
  let durationMeasures := change.duration
  let info : GradualChangeInfo :=
    { startMeasure := change.measure
      endMeasure := (change.measure : ℚ) + durationMeasures
      startBPM := startBPM
      targetBPM := targetBPM
      bpmIncrement := (targetBPM - startBPM) / durationMeasures }
  { s with gradualChange := some info }

/-- `applyTempoChange` (part_007 lines 694-706): `sudden` overwrites
`config.bpm` (and optionally the time signature); `gradual` defers to
`startGradualTempoChange`. -/
def applyTempoChange (change : TempoChange) (s : TempoAgentState) : TempoAgentState :=
  match change.type with
  | .sudden =>
    let s1 := { s with config := { s.config with bpm := change.targetBPM } }
    match change.newTimeSignature with
    | some ts => setTimeSignature ts s1
    | none => s1
  | .gradual => startGradualTempoChange change s

/-- `checkTempoChanges` (part_007 lines 676-689): apply the tempo change
registered for the current measure, if any, then evaluate practice
ramping. -/
def checkTempoChanges (s : TempoAgentState) : TempoAgentState :=
  let s1 :=
    match s.config.tempoChanges.find? (fun c => c.measure == s.currentMeasure) with
    | some c => applyTempoChange c s
    | none => s
  if s1.config.practiceRamping.enabled then checkPracticeRamping s1 else s1

/-- Event types of `BeatEvent` (part_010). -/
inductive BeatEventType where
  | measure
  | beat
  | subdivision
  | polyrhythm
deriving DecidableEq

/-- The data of an emitted `BeatEvent` (part_010); the wall-clock
`timestamp` field is not modelled. -/
structure BeatEventData where
  type : BeatEventType
  measure : ℤ
  beat : ℤ
  tick : ℤ
  audioTime : ℚ
deriving DecidableEq

/-- `scheduleNote` (part_007 lines 631-653): computes the boundary flags
from the counters, runs `checkTempoChanges` at a measure start, and emits
the beat event.  Returns the mutated state and the emitted event. -/
def scheduleNote (time : ℚ) (s : TempoAgentState) : TempoAgentState × BeatEventData :=
  let isMainBeat := s.currentTick = 0
  let isMeasureStart := s.currentBeat = 0 ∧ s.currentTick = 0
  let s1 := if isMeasureStart then checkTempoChanges s else s
  let eventType :=
    if isMeasureStart then BeatEventType.measure
    else if isMainBeat then BeatEventType.beat
    else BeatEventType.subdivision
  (s1, { type := eventType, measure := s1.currentMeasure, beat := s1.currentBeat + 1,
         tick := s1.currentTick, audioTime := time })

/-- `advanceNote` (part_007 lines 760-779): advance the audio-time cursor by
one subdivision and roll the tick/beat/measure counters. -/
def advanceNote (s : TempoAgentState) : TempoAgentState :=
  let secondsPerBeat : ℚ := 60 / s.config.bpm
  let secondsPerSubdivision : ℚ := secondsPerBeat / (s.config.subdivision : ℚ)
  let s1 := { s with nextNoteTime := s.nextNoteTime + secondsPerSubdivision,
                     currentTick := s.currentTick + 1 }
  if s1.currentTick ≥ s1.config.subdivision then
    let s2 := { s1 with currentTick := 0, currentBeat := s1.currentBeat + 1 }
    if s2.currentBeat ≥ s2.config.timeSignature.numerator then
      { s2 with currentBeat := 0, currentMeasure := s2.currentMeasure + 1 }
    else s2
  else s1

/-- `advancePolyrhythmNote` (part_007 lines 784-797): advance the polyrhythm
cursor by `secondsPerPolyBeat = (60/bpm × numerator) / crossBeats` and roll
the cross-beat counter, independently of the main-grid counters. -/
def advancePolyrhythmNote (s : TempoAgentState) : TempoAgentState :=
  let secondsPerBeat : ℚ := 60 / s.config.bpm
  let secondsPerMeasure : ℚ := secondsPerBeat * (s.config.timeSignature.numerator : ℚ)
  let secondsPerPolyBeat : ℚ := secondsPerMeasure / (s.config.polyrhythm.crossBeats : ℚ)
  let s1 := { s with nextPolyNoteTime := s.nextPolyNoteTime + secondsPerPolyBeat,
                     currentPolyBeat := s.currentPolyBeat + 1 }
  if s1.currentPolyBeat ≥ s1.config.polyrhythm.crossBeats then
    { s1 with currentPolyBeat := 0 }
  else s1

/-- One iteration of the inner `while` loop of `scheduleNotes` (part_007
lines 607-610): schedule the note at `nextNoteTime`, then advance. -/
def tickStep (s : TempoAgentState) : TempoAgentState :=
  advanceNote (scheduleNote s.nextNoteTime s).1

/-- The event emitted by the next main-grid loop iteration from state `s`. -/
def tickEvent (s : TempoAgentState) : BeatEventData :=
  (scheduleNote s.nextNoteTime s).2

/-- Outcome oracle for acquiring the audio clock in `start()`:
`new AudioContext()` can throw (`createFails`), and `resume()` can throw
(`resumeFails`, after the field has already been assigned). -/
inductive ClockOutcome where
  | ok
  | createFails
  | resumeFails
deriving DecidableEq

/-- `initializeAudioContext` (part_007 lines 442-454): no-op when the
context already exists; otherwise creates (and possibly resumes) it,
rethrowing any failure.  A `resume` failure happens after
`this.audioContext` was assigned. -/
def initAudioContext (o : ClockOutcome) (s : TempoAgentState) :
    TempoAgentState × Option TAError :=
  if s.hasAudioContext then (s, none)
  else
    match o with
    | .ok => ({ s with hasAudioContext := true }, none)
    | .createFails => (s, some .audioContextInitFailed)
    | .resumeFails => ({ s with hasAudioContext := true }, some .audioContextInitFailed)

/-- `start` (part_007 lines 456-481): `requireInitialized`, no-op when
already active, acquire the audio clock, then reset the whole cursor to the
clock reading `now` and begin scheduling (`schedulerRunning` models the
timeout handle installed by `scheduleNotes`). -/
def start (o : ClockOutcome) (now : ℚ) (s : TempoAgentState) :
    TempoAgentState × Option TAError :=
  if ¬ s.isInitialized then (s, some .notInitialized)
  else if s.isActive then (s, none)
  else
    match initAudioContext o s with
    | (s1, some e) => (s1, some e)
    | (s1, none) =>
      if ¬ s1.hasAudioContext then (s1, some .audioContextNotInitialized)
      else ({ s1 with nextNoteTime := now, nextPolyNoteTime := now,
                      currentMeasure := 1, currentBeat := 0, currentTick := 0,
                      currentPolyBeat := 0, isActive := true,
                      schedulerRunning := true }, none)

/-- `stop` (part_007 lines 483-490): clear the active flag and cancel the
pending control-loop timeout.  Nothing else is touched. -/
def stop (s : TempoAgentState) : TempoAgentState :=
  { s with isActive := false, schedulerRunning := false }

/-- Observable state after calling a throwing setter: since every throwing
setter of `TempoAgent` throws before mutating, a thrown call leaves the
state as it was. -/
def exceptState (f : TempoAgentState → Except TAError TempoAgentState)
    (s : TempoAgentState) : TempoAgentState :=
  match f s with
  | .ok t => t
  | .error _ => s

/-- The BPM produced by one `checkPracticeRamping` evaluation, as a pure
function of the ramping config, the current measure and the current BPM
(used to characterise `checkPracticeRamping`). -/
def rampBPM (r : PracticeRamping) (measure : ℤ) (bpm : ℚ) : ℚ :=
  if measure - 1 > 0 ∧ (measure - 1) % r.measureInterval = 0 then
    if r.direction = .up ∧ bpm < r.targetBPM then min (bpm + r.incrementBPM) r.targetBPM
    else if r.direction = .down ∧ bpm > r.targetBPM then max (bpm - r.incrementBPM) r.targetBPM
    else bpm
  else bpm

/-! ### Invariants and guarded operation sequences

`TickInv` is the counter invariant of spec property P2, `BPMInv` the BPM
range invariant of the data-model section.  The two `GuardedReach`
relations describe the states reachable from a given state by the public
operations and scheduler steps; the guards on individual constructors are
exactly the side conditions under which the corrected claims hold (the
unguarded operations are counterexamples, exhibited separately). -/

/-- Spec P2: `0 ≤ currentTick < subdivision`, `0 ≤ currentBeat < numerator`,
`currentMeasure ≥ 1`. -/
def TickInv (s : TempoAgentState) : Prop :=
  0 ≤ s.currentTick ∧ s.currentTick < s.config.subdivision ∧
  0 ≤ s.currentBeat ∧ s.currentBeat < s.config.timeSignature.numerator ∧
  1 ≤ s.currentMeasure

/-- Every registered tempo change that carries a new time signature carries
one with a positive numerator. -/
def ChangesSigOK (s : TempoAgentState) : Prop :=
  ∀ c ∈ s.config.tempoChanges, ∀ ts ∈ c.newTimeSignature, 1 ≤ ts.numerator

/-- A practice-ramping config whose BPM fields stay inside `[30, 300]` and
whose increment is non-negative. -/
def RampOK (r : PracticeRamping) : Prop :=
  30 ≤ r.startBPM ∧ r.startBPM ≤ 300 ∧ 30 ≤ r.targetBPM ∧ r.targetBPM ≤ 300 ∧
  0 ≤ r.incrementBPM

/-- Every registered tempo change has a target BPM inside `[30, 300]`. -/
def ChangesBPMOK (s : TempoAgentState) : Prop :=
  ∀ c ∈ s.config.tempoChanges, 30 ≤ c.targetBPM ∧ c.targetBPM ≤ 300

/-- The BPM range invariant together with the config conditions that keep
it inductive. -/
def BPMInv (s : TempoAgentState) : Prop :=
  30 ≤ s.config.bpm ∧ s.config.bpm ≤ 300 ∧
  RampOK s.config.practiceRamping ∧ ChangesBPMOK s

/-- States reachable from `s0` by public operations and scheduler steps,
restricted by the guards needed for the tick-counter invariants:
`setTimeSignature` is only called with a positive numerator,
`setSubdivision n` only with `n` above the current tick, and
`addTempoChange` only with changes whose attached time signature (if any)
has a positive numerator. -/
inductive GuardedReachTick (s0 : TempoAgentState) : TempoAgentState → Prop where
  | init : GuardedReachTick s0 s0
  | startOp (s : TempoAgentState) (o : ClockOutcome) (now : ℚ) :
      GuardedReachTick s0 s → GuardedReachTick s0 (start o now s).1
  | stopOp (s : TempoAgentState) :
      GuardedReachTick s0 s → GuardedReachTick s0 (stop s)
  | setBPMOp (s : TempoAgentState) (b : ℚ) :
      GuardedReachTick s0 s → GuardedReachTick s0 (exceptState (setBPM b) s)
  | setTimeSignatureOp (s : TempoAgentState) (ts : TimeSignature) (h : 1 ≤ ts.numerator) :
      GuardedReachTick s0 s → GuardedReachTick s0 (setTimeSignature ts s)
  | setSubdivisionOp (s : TempoAgentState) (n : ℤ) (h : s.currentTick < n) :
      GuardedReachTick s0 s → GuardedReachTick s0 (exceptState (setSubdivision n) s)
  | setPolyrhythmOp (s : TempoAgentState) (p : PolyrhythmPatch) (now : ℚ) :
      GuardedReachTick s0 s → GuardedReachTick s0 (setPolyrhythm p now s)
  | addTempoChangeOp (s : TempoAgentState) (c : TempoChange)
      (h : ∀ ts ∈ c.newTimeSignature, 1 ≤ ts.numerator) :
      GuardedReachTick s0 s → GuardedReachTick s0 (addTempoChange c s)
  | removeTempoChangeOp (s : TempoAgentState) (m : ℤ) :
      GuardedReachTick s0 s → GuardedReachTick s0 (removeTempoChange m s)
  | setPracticeRampingOp (s : TempoAgentState) (p : PracticeRampingPatch) :
      GuardedReachTick s0 s → GuardedReachTick s0 (setPracticeRamping p s)
  | startPracticeRampingOp (s : TempoAgentState) :
      GuardedReachTick s0 s → GuardedReachTick s0 (startPracticeRamping s)
  | schedulerStepOp (s : TempoAgentState) (h : s.isActive = true) :
      GuardedReachTick s0 s → GuardedReachTick s0 (tickStep s)
  | polyStepOp (s : TempoAgentState) (h : s.isActive = true) :
      GuardedReachTick s0 s → GuardedReachTick s0 (advancePolyrhythmNote s)

/-- States reachable from `s0` by public operations and scheduler steps,
restricted by the guards needed for the BPM range invariant: tempo changes
are only registered with target BPM in `[30, 300]`, and practice-ramping
reconfiguration keeps the merged config in `RampOK`. -/
inductive GuardedReachBPM (s0 : TempoAgentState) : TempoAgentState → Prop where
  | init : GuardedReachBPM s0 s0
  | startOp (s : TempoAgentState) (o : ClockOutcome) (now : ℚ) :
      GuardedReachBPM s0 s → GuardedReachBPM s0 (start o now s).1
  | stopOp (s : TempoAgentState) :
      GuardedReachBPM s0 s → GuardedReachBPM s0 (stop s)
  | setBPMOp (s : TempoAgentState) (b : ℚ) :
      GuardedReachBPM s0 s → GuardedReachBPM s0 (exceptState (setBPM b) s)
  | setTimeSignatureOp (s : TempoAgentState) (ts : TimeSignature) :
      GuardedReachBPM s0 s → GuardedReachBPM s0 (setTimeSignature ts s)
  | setSubdivisionOp (s : TempoAgentState) (n : ℤ) :
      GuardedReachBPM s0 s → GuardedReachBPM s0 (exceptState (setSubdivision n) s)
  | setPolyrhythmOp (s : TempoAgentState) (p : PolyrhythmPatch) (now : ℚ) :
      GuardedReachBPM s0 s → GuardedReachBPM s0 (setPolyrhythm p now s)
  | addTempoChangeOp (s : TempoAgentState) (c : TempoChange)
      (h : 30 ≤ c.targetBPM ∧ c.targetBPM ≤ 300) :
      GuardedReachBPM s0 s → GuardedReachBPM s0 (addTempoChange c s)
  | removeTempoChangeOp (s : TempoAgentState) (m : ℤ) :
      GuardedReachBPM s0 s → GuardedReachBPM s0 (removeTempoChange m s)
  | setPracticeRampingOp (s : TempoAgentState) (p : PracticeRampingPatch)
      (h : RampOK (mergeRamping s.config.practiceRamping p)) :
      GuardedReachBPM s0 s → GuardedReachBPM s0 (setPracticeRamping p s)
  | startPracticeRampingOp (s : TempoAgentState) :
      GuardedReachBPM s0 s → GuardedReachBPM s0 (startPracticeRamping s)
  | schedulerStepOp (s : TempoAgentState) (h : s.isActive = true) :
      GuardedReachBPM s0 s → GuardedReachBPM s0 (tickStep s)
  | polyStepOp (s : TempoAgentState) (h : s.isActive = true) :
      GuardedReachBPM s0 s → GuardedReachBPM s0 (advancePolyrhythmNote s)

/-! ### Concrete scenario states used by the claims -/

/-- The gradual tempo change of spec property P6:
`addTempoChange({measure: 5, type: 'gradual', targetBPM: 140, duration: 4})`. -/
def c1Change : TempoChange := ⟨5, .gradual, 140, 4, none⟩

/-- Fresh agent (default BPM 100, 4/4, subdivision 1) with the P6 gradual
change registered, started at audio time 0. -/
def c1State : TempoAgentState := (start .ok 0 (addTempoChange c1Change initState)).1

/-- The subdivision-shrink counterexample state: start a fresh agent with
subdivision 4, run three scheduler ticks (tick = 3), then call
`setSubdivision(2)` — a call the code accepts. -/
def c2CexState : TempoAgentState :=
  exceptState (setSubdivision 2)
    ((tickStep^[3]) (start .ok 0 (exceptState (setSubdivision 4) initState)).1)

/-- The unvalidated-ramping counterexample state:
`setPracticeRamping({enabled: true, startBPM: 0, targetBPM: 90,
incrementBPM: 10, measureInterval: 2, direction: 'up'})` followed by
`startPracticeRamping()`. -/
def c3CexState : TempoAgentState :=
  startPracticeRamping
    (setPracticeRamping ⟨some true, some 0, some 90, some 10, some 2, some .up⟩ initState)

/-- A running agent after three scheduler ticks (measure 1, beat 3, tick 0
with the default 4/4, subdivision 1 config). -/
def c6RunState : TempoAgentState := (tickStep^[3]) (start .ok 0 initState).1

/-- Scenario C ramping config patch: `{enabled: true, startBPM: 60,
targetBPM: 90, incrementBPM: 10, measureInterval: 2, direction: 'up'}`. -/
def rampPatch8 : PracticeRampingPatch := ⟨some true, some 60, some 90, some 10, some 2, some .up⟩

/-- Scenario C start state: configure ramping, `startPracticeRamping()`
(BPM seeded to 60), then start the scheduler at audio time 0 (4/4,
subdivision 1). -/
def c8State : TempoAgentState :=
  (start .ok 0 (startPracticeRamping (setPracticeRamping rampPatch8 initState))).1

/-- The BPM in effect during measure `m` of the Scenario C run: the BPM
after the scheduler has processed the boundary tick of measure `m` (with
4/4 and subdivision 1, that boundary is scheduler step `(m-1)*4`, and the
BPM is read after that step). -/
def c8BPMInMeasure (m : ℕ) : ℚ := ((tickStep^[(m - 1) * 4 + 1]) c8State).config.bpm

/-- The full ramping config in effect during the Scenario C run (the
`rampPatch8` patch merged over the constructor default). -/
def c8Ramping : PracticeRamping := ⟨true, 60, 90, 10, 2, .up⟩

/-- Spec property P7 scenario: BPM 120 (via `setBPM`), 4/4, subdivision 1,
polyrhythm enabled with 3 cross-beats, started at audio time 0. -/
def c9State : TempoAgentState :=
  (start .ok 0
    (setPolyrhythm ⟨some true, some 3, none, none⟩ 0
      (exceptState (setBPM 120) initState))).1

/-! ### Basic lemmas about the operations -/

theorem mem_insertByMeasure {c x : TempoChange} {l : List TempoChange} :
    x ∈ insertByMeasure c l ↔ x = c ∨ x ∈ l := by
  induction l with
  | nil => simp [insertByMeasure]
  | cons d ds ih =>
    unfold insertByMeasure
    split
    · simp [List.mem_cons]
    · simp only [List.mem_cons, ih]
      tauto

theorem mem_sortByMeasure {x : TempoChange} {l : List TempoChange} :
    x ∈ sortByMeasure l ↔ x ∈ l := by
  induction l with
  | nil => simp [sortByMeasure]
  | cons d ds ih => simp [sortByMeasure, mem_insertByMeasure, ih]

/-- `checkPracticeRamping` only rewrites `config.bpm`, with the value given
by the pure function `rampBPM`. -/
theorem checkPracticeRamping_eq (s : TempoAgentState) :
    checkPracticeRamping s =
      { s with config := { s.config with
          bpm := rampBPM s.config.practiceRamping s.currentMeasure s.config.bpm } } := by
  simp only [checkPracticeRamping, rampBPM]
  split_ifs <;> first | rfl | simp_all

theorem rampBPM_bounds (r : PracticeRamping) (m : ℤ) (bpm : ℚ) (hr : RampOK r)
    (h1 : 30 ≤ bpm) (h2 : bpm ≤ 300) :
    30 ≤ rampBPM r m bpm ∧ rampBPM r m bpm ≤ 300 := by
  obtain ⟨hs1, hs2, ht1, ht2, hi⟩ := hr
  unfold rampBPM
  split_ifs with ha hb hc
  · exact ⟨le_min (by linarith) ht1, le_trans (min_le_right _ _) ht2⟩
  · exact ⟨le_trans ht1 (le_max_right _ _), max_le (by linarith) ht2⟩
  · exact ⟨h1, h2⟩
  · exact ⟨h1, h2⟩

theorem advanceNote_config (s : TempoAgentState) :
    (advanceNote s).config = s.config := by
  simp only [advanceNote]
  split_ifs <;> rfl

theorem advanceNote_flags (s : TempoAgentState) :
    (advanceNote s).isActive = s.isActive ∧
    (advanceNote s).gradualChange = s.gradualChange ∧
    (advanceNote s).nextPolyNoteTime = s.nextPolyNoteTime ∧
    (advanceNote s).currentPolyBeat = s.currentPolyBeat := by
  simp only [advanceNote]
  split_ifs <;> exact ⟨rfl, rfl, rfl, rfl⟩

theorem advanceNote_nextNoteTime (s : TempoAgentState) :
    (advanceNote s).nextNoteTime =
      s.nextNoteTime + 60 / s.config.bpm / (s.config.subdivision : ℚ) := by
  simp only [advanceNote]
  split_ifs <;> rfl

theorem advanceNote_counters (s : TempoAgentState) :
    ((advanceNote s).currentTick = s.currentTick + 1 ∧
       (advanceNote s).currentBeat = s.currentBeat ∧
       (advanceNote s).currentMeasure = s.currentMeasure ∧
       ¬ s.currentTick + 1 ≥ s.config.subdivision) ∨
    ((advanceNote s).currentTick = 0 ∧
       (advanceNote s).currentBeat = s.currentBeat + 1 ∧
       (advanceNote s).currentMeasure = s.currentMeasure ∧
       s.currentTick + 1 ≥ s.config.subdivision ∧
       ¬ s.currentBeat + 1 ≥ s.config.timeSignature.numerator) ∨
    ((advanceNote s).currentTick = 0 ∧
       (advanceNote s).currentBeat = 0 ∧
       (advanceNote s).currentMeasure = s.currentMeasure + 1 ∧
       s.currentTick + 1 ≥ s.config.subdivision ∧
       s.currentBeat + 1 ≥ s.config.timeSignature.numerator) := by
  simp only [advanceNote]
  split_ifs with h1 h2
  · exact Or.inr (Or.inr ⟨rfl, rfl, rfl, h1, h2⟩)
  · exact Or.inr (Or.inl ⟨rfl, rfl, rfl, h1, h2⟩)
  · exact Or.inl ⟨rfl, rfl, rfl, h1⟩

theorem advanceNote_tickInv (s : TempoAgentState) (h : TickInv s) :
    TickInv (advanceNote s) := by
  obtain ⟨h1, h2, h3, h4, h5⟩ := h
  have hcfg := advanceNote_config s
  rcases advanceNote_counters s with ⟨a, b, c, d⟩ | ⟨a, b, c, d, e⟩ | ⟨a, b, c, d, e⟩ <;>
    exact ⟨by omega, by rw [a, hcfg]; omega, by omega,
           by rw [b, hcfg]; omega, by omega⟩

/-- `(scheduleNote t s).1`: `checkTempoChanges` runs exactly at a measure
boundary. -/
theorem scheduleNote_fst (t : ℚ) (s : TempoAgentState) :
    (scheduleNote t s).1 =
      if s.currentBeat = 0 ∧ s.currentTick = 0 then checkTempoChanges s else s := rfl

/-- The type of an emitted event, from the pre-emission counters. -/
theorem tickEvent_type (s : TempoAgentState) :
    (tickEvent s).type =
      if s.currentBeat = 0 ∧ s.currentTick = 0 then BeatEventType.measure
      else if s.currentTick = 0 then BeatEventType.beat
      else BeatEventType.subdivision := rfl

/-- The practice-ramping layer of `checkTempoChanges`, characterised as a
pure rewrite of `config.bpm`. -/
theorem rampLayer_eq (t : TempoAgentState) :
    (if t.config.practiceRamping.enabled then checkPracticeRamping t else t) =
      { t with config := { t.config with
          bpm := if t.config.practiceRamping.enabled then
              rampBPM t.config.practiceRamping t.currentMeasure t.config.bpm
            else t.config.bpm } } := by
  split_ifs with h
  · rw [checkPracticeRamping_eq]
  · rfl

theorem applyTempoChange_proj (c : TempoChange) (s : TempoAgentState) :
    (applyTempoChange c s).config.tempoChanges = s.config.tempoChanges ∧
    (applyTempoChange c s).config.practiceRamping = s.config.practiceRamping ∧
    (applyTempoChange c s).config.subdivision = s.config.subdivision ∧
    (applyTempoChange c s).config.polyrhythm = s.config.polyrhythm ∧
    (applyTempoChange c s).currentMeasure = s.currentMeasure ∧
    (applyTempoChange c s).nextNoteTime = s.nextNoteTime ∧
    (applyTempoChange c s).nextPolyNoteTime = s.nextPolyNoteTime ∧
    (applyTempoChange c s).currentPolyBeat = s.currentPolyBeat ∧
    (applyTempoChange c s).isActive = s.isActive := by
  cases htype : c.type with
  | sudden =>
    cases hts : c.newTimeSignature with
    | none => simp [applyTempoChange, htype, hts, setTimeSignature]
    | some ts => simp [applyTempoChange, htype, hts, setTimeSignature]
  | gradual => simp [applyTempoChange, htype, startGradualTempoChange]

/-- Fields that `checkTempoChanges` can never modify. -/
theorem checkTempoChanges_preserved (s : TempoAgentState) :
    (checkTempoChanges s).config.tempoChanges = s.config.tempoChanges ∧
    (checkTempoChanges s).config.practiceRamping = s.config.practiceRamping ∧
    (checkTempoChanges s).config.subdivision = s.config.subdivision ∧
    (checkTempoChanges s).config.polyrhythm = s.config.polyrhythm ∧
    (checkTempoChanges s).currentMeasure = s.currentMeasure ∧
    (checkTempoChanges s).nextNoteTime = s.nextNoteTime ∧
    (checkTempoChanges s).nextPolyNoteTime = s.nextPolyNoteTime ∧
    (checkTempoChanges s).currentPolyBeat = s.currentPolyBeat ∧
    (checkTempoChanges s).isActive = s.isActive := by
  unfold checkTempoChanges
  cases hfind : s.config.tempoChanges.find? (fun c => c.measure == s.currentMeasure) with
  | none =>
    rw [rampLayer_eq]
    exact ⟨rfl, rfl, rfl, rfl, rfl, rfl, rfl, rfl, rfl⟩
  | some c =>
    have hp := applyTempoChange_proj c s
    rw [rampLayer_eq]
    exact hp

/-- Effect of `checkTempoChanges` on the counters and the time signature:
either they are untouched, or a registered change installed its attached
time signature and reset beat and tick to 0. -/
theorem checkTempoChanges_sig_cases (s : TempoAgentState) :
    ((checkTempoChanges s).currentBeat = s.currentBeat ∧
       (checkTempoChanges s).currentTick = s.currentTick ∧
       (checkTempoChanges s).config.timeSignature = s.config.timeSignature) ∨
    (∃ c ∈ s.config.tempoChanges, ∃ ts ∈ c.newTimeSignature,
       (checkTempoChanges s).currentBeat = 0 ∧
       (checkTempoChanges s).currentTick = 0 ∧
       (checkTempoChanges s).config.timeSignature = ts) := by
  unfold checkTempoChanges
  cases hfind : s.config.tempoChanges.find? (fun c => c.measure == s.currentMeasure) with
  | none =>
    rw [rampLayer_eq]
    exact Or.inl ⟨rfl, rfl, rfl⟩
  | some c =>
    have hmem : c ∈ s.config.tempoChanges := List.mem_of_find?_eq_some hfind
    rw [rampLayer_eq]
    cases htype : c.type with
    | gradual =>
      left
      simp [applyTempoChange, htype, startGradualTempoChange]
    | sudden =>
      cases hts : c.newTimeSignature with
      | none =>
        left
        simp [applyTempoChange, htype, hts]
      | some ts =>
        right
        refine ⟨c, hmem, ts, by simp [hts], ?_, ?_, ?_⟩ <;>
          simp [applyTempoChange, htype, hts, setTimeSignature]

/-- When every registered tempo change is gradual, `checkTempoChanges`
leaves the whole scheduling grid (counters, signature, subdivision) alone;
it can only rewrite `config.bpm` (practice ramping) and `gradualChange`.
If ramping is disabled, even `config.bpm` is untouched. -/
theorem checkTempoChanges_allGradual (s : TempoAgentState)
    (hg : ∀ c ∈ s.config.tempoChanges, c.type = TempoChangeType.gradual) :
    (checkTempoChanges s).currentBeat = s.currentBeat ∧
    (checkTempoChanges s).currentTick = s.currentTick ∧
    (checkTempoChanges s).config.timeSignature = s.config.timeSignature ∧
    (s.config.practiceRamping.enabled = false →
      (checkTempoChanges s).config.bpm = s.config.bpm) := by
  unfold checkTempoChanges
  cases hfind : s.config.tempoChanges.find? (fun c => c.measure == s.currentMeasure) with
  | none =>
    rw [rampLayer_eq]
    refine ⟨rfl, rfl, rfl, fun h => ?_⟩
    simp [h]
  | some c =>
    have hmem : c ∈ s.config.tempoChanges := List.mem_of_find?_eq_some hfind
    have htype := hg c hmem
    rw [rampLayer_eq]
    refine ⟨?_, ?_, ?_, fun h => ?_⟩
    · simp [applyTempoChange, htype, startGradualTempoChange]
    · simp [applyTempoChange, htype, startGradualTempoChange]
    · simp [applyTempoChange, htype, startGradualTempoChange]
    · simp [applyTempoChange, htype, startGradualTempoChange, h]

/-- With no registered tempo changes and ramping disabled,
`checkTempoChanges` is the identity. -/
theorem checkTempoChanges_id (s : TempoAgentState)
    (h1 : s.config.tempoChanges = [])
    (h2 : s.config.practiceRamping.enabled = false) :
    checkTempoChanges s = s := by
  unfold checkTempoChanges
  rw [h1]
  simp [h2]

/-- BPM bounds are preserved by `checkTempoChanges` when every registered
target BPM is in range and the ramping config is well-formed. -/
theorem checkTempoChanges_bpm (s : TempoAgentState)
    (hr : RampOK s.config.practiceRamping) (hc : ChangesBPMOK s)
    (h30 : 30 ≤ s.config.bpm) (h300 : s.config.bpm ≤ 300) :
    30 ≤ (checkTempoChanges s).config.bpm ∧
    (checkTempoChanges s).config.bpm ≤ 300 := by
  unfold checkTempoChanges
  cases hfind : s.config.tempoChanges.find? (fun c => c.measure == s.currentMeasure) with
  | none =>
    rw [rampLayer_eq]
    by_cases h : s.config.practiceRamping.enabled
    · simpa [h] using rampBPM_bounds _ _ _ hr h30 h300
    · simp [eq_false_of_ne_true h, h30, h300]
  | some c =>
    have hmem : c ∈ s.config.tempoChanges := List.mem_of_find?_eq_some hfind
    have htgt := hc c hmem
    rw [rampLayer_eq]
    have hbpm : (applyTempoChange c s).config.bpm = s.config.bpm ∨
        (applyTempoChange c s).config.bpm = c.targetBPM := by
      cases htype : c.type with
      | gradual =>
        left
        simp [applyTempoChange, htype, startGradualTempoChange]
      | sudden =>
        right
        cases hts : c.newTimeSignature with
        | none => simp [applyTempoChange, htype, hts]
        | some ts => simp [applyTempoChange, htype, hts, setTimeSignature]
    have hproj := applyTempoChange_proj c s
    have hm : (applyTempoChange c s).currentMeasure = s.currentMeasure := hproj.2.2.2.2.1
    have hrr : (applyTempoChange c s).config.practiceRamping = s.config.practiceRamping :=
      hproj.2.1
    have h30a : 30 ≤ (applyTempoChange c s).config.bpm := by
      rcases hbpm with h | h <;> rw [h]
      · exact h30
      · exact htgt.1
    have h300a : (applyTempoChange c s).config.bpm ≤ 300 := by
      rcases hbpm with h | h <;> rw [h]
      · exact h300
      · exact htgt.2
    by_cases h : (applyTempoChange c s).config.practiceRamping.enabled
    · have := rampBPM_bounds (applyTempoChange c s).config.practiceRamping
        (applyTempoChange c s).currentMeasure (applyTempoChange c s).config.bpm
        (hrr ▸ hr) h30a h300a
      simpa [h] using this
    · simp [eq_false_of_ne_true h, h30a, h300a]

theorem tickEvent_measure_iff (s : TempoAgentState) :
    (tickEvent s).type = BeatEventType.measure ↔
      s.currentBeat = 0 ∧ s.currentTick = 0 := by
  rw [tickEvent_type]
  split_ifs with h1 h2
  · simp [h1]
  · simp only [h2, and_true] at h1
    simp [h1, h2]
  · simp [h2]

/-! ### Lemmas about a full scheduler step -/

/-- When every registered tempo change is gradual, one scheduler step moves
the counters exactly like `advanceNote` and leaves signature, subdivision
and the change list alone. -/
theorem tickStep_grid (s : TempoAgentState)
    (hg : ∀ c ∈ s.config.tempoChanges, c.type = TempoChangeType.gradual) :
    (tickStep s).config.timeSignature = s.config.timeSignature ∧
    (tickStep s).config.subdivision = s.config.subdivision ∧
    (tickStep s).config.tempoChanges = s.config.tempoChanges ∧
    (((tickStep s).currentTick = s.currentTick + 1 ∧
        (tickStep s).currentBeat = s.currentBeat ∧
        (tickStep s).currentMeasure = s.currentMeasure ∧
        ¬ s.currentTick + 1 ≥ s.config.subdivision) ∨
     ((tickStep s).currentTick = 0 ∧
        (tickStep s).currentBeat = s.currentBeat + 1 ∧
        (tickStep s).currentMeasure = s.currentMeasure ∧
        s.currentTick + 1 ≥ s.config.subdivision ∧
        ¬ s.currentBeat + 1 ≥ s.config.timeSignature.numerator) ∨
     ((tickStep s).currentTick = 0 ∧
        (tickStep s).currentBeat = 0 ∧
        (tickStep s).currentMeasure = s.currentMeasure + 1 ∧
        s.currentTick + 1 ≥ s.config.subdivision ∧
        s.currentBeat + 1 ≥ s.config.timeSignature.numerator)) := by
  have hmid : (scheduleNote s.nextNoteTime s).1.currentBeat = s.currentBeat ∧
      (scheduleNote s.nextNoteTime s).1.currentTick = s.currentTick ∧
      (scheduleNote s.nextNoteTime s).1.currentMeasure = s.currentMeasure ∧
      (scheduleNote s.nextNoteTime s).1.config.timeSignature = s.config.timeSignature ∧
      (scheduleNote s.nextNoteTime s).1.config.subdivision = s.config.subdivision ∧
      (scheduleNote s.nextNoteTime s).1.config.tempoChanges = s.config.tempoChanges := by
    rw [scheduleNote_fst]
    split_ifs with hbd
    · have hA := checkTempoChanges_allGradual s hg
      have hP := checkTempoChanges_preserved s
      exact ⟨hbd.1 ▸ hA.1, hbd.2 ▸ hA.2.1, hP.2.2.2.2.1, hA.2.2.1, hP.2.2.1, hP.1⟩
    · exact ⟨rfl, rfl, rfl, rfl, rfl, rfl⟩
  obtain ⟨m1, m2, m3, m4, m5, m6⟩ := hmid
  rw [show tickStep s = advanceNote (scheduleNote s.nextNoteTime s).1 from rfl]
  have hcfg := advanceNote_config (scheduleNote s.nextNoteTime s).1
  have hctr := advanceNote_counters (scheduleNote s.nextNoteTime s).1
  refine ⟨by rw [hcfg, m4], by rw [hcfg, m5], by rw [hcfg, m6], ?_⟩
  rcases hctr with ⟨a, b, c, d⟩ | ⟨a, b, c, d, e⟩ | ⟨a, b, c, d, e⟩
  · exact Or.inl ⟨by rw [a, m2], by rw [b, m1], by rw [c, m3],
      by rw [m2, m5] at d; exact d⟩
  · exact Or.inr (Or.inl ⟨a, by rw [b, m1], by rw [c, m3],
      by rw [m2, m5] at d; exact d, by rw [m1, m4] at e; exact e⟩)
  · exact Or.inr (Or.inr ⟨a, b, by rw [c, m3],
      by rw [m2, m5] at d; exact d, by rw [m1, m4] at e; exact e⟩)

/-- When every registered change is gradual and ramping is disabled, a
scheduler step cannot move the BPM or the ramping/change configuration. -/
theorem tickStep_bpm_inert (s : TempoAgentState)
    (hg : ∀ c ∈ s.config.tempoChanges, c.type = TempoChangeType.gradual)
    (he : s.config.practiceRamping.enabled = false) :
    (tickStep s).config.bpm = s.config.bpm ∧
    (tickStep s).config.practiceRamping = s.config.practiceRamping := by
  rw [show tickStep s = advanceNote (scheduleNote s.nextNoteTime s).1 from rfl]
  rw [advanceNote_config]
  rw [scheduleNote_fst]
  split_ifs with hbd
  · exact ⟨(checkTempoChanges_allGradual s hg).2.2.2 he,
      (checkTempoChanges_preserved s).2.1⟩
  · exact ⟨rfl, rfl⟩

/-- With no registered tempo changes and ramping disabled, a scheduler step
is exactly `advanceNote`. -/
theorem tickStep_inert (s : TempoAgentState)
    (h1 : s.config.tempoChanges = [])
    (h2 : s.config.practiceRamping.enabled = false) :
    tickStep s = advanceNote s := by
  show advanceNote (scheduleNote s.nextNoteTime s).1 = advanceNote s
  rw [scheduleNote_fst]
  split_ifs with hbd
  · rw [checkTempoChanges_id s h1 h2]
  · rfl

/-! ### Arithmetic helpers for the counter closed form -/

theorem mod_div_succ (d k : ℕ) (hd : 0 < d) :
    (k % d + 1 < d → (k + 1) % d = k % d + 1 ∧ (k + 1) / d = k / d) ∧
    (k % d + 1 = d → (k + 1) % d = 0 ∧ (k + 1) / d = k / d + 1) := by
  have h0 : d * (k / d) + k % d = k := Nat.div_add_mod k d
  constructor
  · intro h
    have hk : k + 1 = d * (k / d) + (k % d + 1) := by omega
    constructor
    · rw [hk, Nat.mul_add_mod, Nat.mod_eq_of_lt h]
    · rw [hk, Nat.mul_add_div hd, Nat.div_eq_of_lt h, Nat.add_zero]
  · intro h
    have hk : k + 1 = d * (k / d + 1) := by
      rw [Nat.mul_add, Nat.mul_one]
      omega
    constructor
    · rw [hk, Nat.mul_mod_right]
    · rw [hk, Nat.mul_div_cancel_left _ hd]

theorem boundary_iff_dvd (d n k : ℕ) (hd : 0 < d) :
    (k % d = 0 ∧ k / d % n = 0) ↔ d * n ∣ k := by
  constructor
  · rintro ⟨h1, h2⟩
    have hdk : d ∣ k := Nat.dvd_of_mod_eq_zero h1
    obtain ⟨m, hm⟩ := Nat.dvd_of_mod_eq_zero h2
    refine ⟨m, ?_⟩
    calc k = k / d * d := (Nat.div_mul_cancel hdk).symm
    _ = n * m * d := by rw [hm]
    _ = d * n * m := by ring
  · rintro ⟨m, rfl⟩
    constructor
    · have : d * n * m = d * (n * m) := by ring
      rw [this, Nat.mul_mod_right]
    · rw [mul_assoc, Nat.mul_div_cancel_left _ hd, Nat.mul_mod_right]

theorem exists_unique_dvd_window (P a : ℕ) (hP : 0 < P) :
    ∃! k, (a ≤ k ∧ k < a + P) ∧ P ∣ k := by
  have hdvd : P ∣ a + (P - a % P) % P := by
    apply Nat.dvd_of_mod_eq_zero
    by_cases h : a % P = 0
    · rw [h, Nat.sub_zero, Nat.mod_self, Nat.add_zero]
      exact h
    · have hlt : a % P < P := Nat.mod_lt a hP
      have h1 : P - a % P < P := by omega
      have hsum : a % P + (P - a % P) = P := by omega
      rw [Nat.mod_eq_of_lt h1, Nat.add_mod, Nat.mod_eq_of_lt h1, hsum, Nat.mod_self]
  have hlo : a ≤ a + (P - a % P) % P := Nat.le_add_right _ _
  have hhi : a + (P - a % P) % P < a + P := by
    have := Nat.mod_lt (P - a % P) hP
    omega
  refine ⟨a + (P - a % P) % P, ⟨⟨hlo, hhi⟩, hdvd⟩, ?_⟩
  rintro y ⟨⟨hy1, hy2⟩, hy3⟩
  have d1 : P ∣ a + (P - a % P) % P - y := Nat.dvd_sub' hdvd hy3
  have d2 : P ∣ y - (a + (P - a % P) % P) := Nat.dvd_sub' hy3 hdvd
  have z1 := Nat.eq_zero_of_dvd_of_lt d1
  have z2 := Nat.eq_zero_of_dvd_of_lt d2
  by_cases hc : a + (P - a % P) % P - y = 0
  · by_cases hc2 : y - (a + (P - a % P) % P) = 0
    · omega
    · have := z2 (by omega)
      omega
  · have := z1 (by omega)
    omega

/-- Closed form for the counters along a run whose registered changes are
all gradual (so neither signature nor subdivision can move), started at a
measure boundary: after `k` scheduler steps, with `d = subdivision` and
`n = numerator`, the position is `tick = k % d`, `beat = k / d % n`,
`measure = measure₀ + k / d / n`. -/
theorem iterate_counters (s : TempoAgentState)
    (hg : ∀ c ∈ s.config.tempoChanges, c.type = TempoChangeType.gradual)
    (hb : s.currentBeat = 0) (ht : s.currentTick = 0)
    (hN : 1 ≤ s.config.timeSignature.numerator) (hD : 1 ≤ s.config.subdivision)
    (k : ℕ) :
    ((tickStep^[k]) s).currentTick = ((k % s.config.subdivision.toNat : ℕ) : ℤ) ∧
    ((tickStep^[k]) s).currentBeat =
      ((k / s.config.subdivision.toNat % s.config.timeSignature.numerator.toNat : ℕ) : ℤ) ∧
    ((tickStep^[k]) s).currentMeasure =
      s.currentMeasure +
        ((k / s.config.subdivision.toNat / s.config.timeSignature.numerator.toNat : ℕ) : ℤ) ∧
    ((tickStep^[k]) s).config.timeSignature = s.config.timeSignature ∧
    ((tickStep^[k]) s).config.subdivision = s.config.subdivision ∧
    ((tickStep^[k]) s).config.tempoChanges = s.config.tempoChanges := by
  set d := s.config.subdivision.toNat with hdDef
  set n := s.config.timeSignature.numerator.toNat with hnDef
  have hdpos : 0 < d := by omega
  have hnpos : 0 < n := by omega
  have hdcast : (d : ℤ) = s.config.subdivision := by omega
  have hncast : (n : ℤ) = s.config.timeSignature.numerator := by omega
  induction k with
  | zero => simp [ht, hb]
  | succ k ih =>
    obtain ⟨i1, i2, i3, i4, i5, i6⟩ := ih
    have hg2 : ∀ c ∈ ((tickStep^[k]) s).config.tempoChanges,
        c.type = TempoChangeType.gradual := by
      rw [i6]; exact hg
    obtain ⟨g1, g2, g3, gcases⟩ := tickStep_grid ((tickStep^[k]) s) hg2
    rw [Function.iterate_succ_apply']
    refine ⟨?_, ?_, ?_, by rw [g1, i4], by rw [g2, i5], by rw [g3, i6]⟩
    all_goals {
      rw [i4, i5] at gcases
      rcases gcases with ⟨a, b, c, hcond⟩ | ⟨a, b, c, hc1, hc2⟩ | ⟨a, b, c, hc1, hc2⟩
      · have hlt : k % d + 1 < d := by rw [i1] at hcond; omega
        obtain ⟨e1, e2⟩ := (mod_div_succ d k hdpos).1 hlt
        simp only [e1, e2]
        omega
      · have heq : k % d + 1 = d := by
          rw [i1] at hc1
          have : k % d < d := Nat.mod_lt _ hdpos
          omega
        obtain ⟨e1, e2⟩ := (mod_div_succ d k hdpos).2 heq
        have hlt2 : k / d % n + 1 < n := by rw [i2] at hc2; omega
        obtain ⟨f1, f2⟩ := (mod_div_succ n (k / d) hnpos).1 hlt2
        simp only [e1, e2, f1, f2]
        omega
      · have heq : k % d + 1 = d := by
          rw [i1] at hc1
          have : k % d < d := Nat.mod_lt _ hdpos
          omega
        obtain ⟨e1, e2⟩ := (mod_div_succ d k hdpos).2 heq
        have heq2 : k / d % n + 1 = n := by
          rw [i2] at hc2
          have : k / d % n < n := Nat.mod_lt _ hnpos
          omega
        obtain ⟨e1b, e2b⟩ := (mod_div_succ n (k / d) hnpos).2 heq2
        simp only [e1, e2, e1b, e2b]
        omega
    }

/-- With no tempo changes and ramping disabled, iterating the scheduler
leaves the whole config alone and advances `nextNoteTime` by
`(60 / bpm) / subdivision` per step. -/
theorem iterate_inert (s : TempoAgentState)
    (h1 : s.config.tempoChanges = [])
    (h2 : s.config.practiceRamping.enabled = false) (k : ℕ) :
    ((tickStep^[k]) s).config = s.config ∧
    ((tickStep^[k]) s).nextNoteTime =
      s.nextNoteTime + k * (60 / s.config.bpm / (s.config.subdivision : ℚ)) := by
  induction k with
  | zero => simp
  | succ k ih =>
    obtain ⟨ic, it⟩ := ih
    rw [Function.iterate_succ_apply']
    have h1a : ((tickStep^[k]) s).config.tempoChanges = [] := by rw [ic]; exact h1
    have h2a : ((tickStep^[k]) s).config.practiceRamping.enabled = false := by
      rw [ic]; exact h2
    rw [tickStep_inert _ h1a h2a]
    refine ⟨by rw [advanceNote_config, ic], ?_⟩
    rw [advanceNote_nextNoteTime, ic, it]
    push_cast
    ring

/-- `advancePolyrhythmNote` only moves the polyrhythm cursor: the config,
the main-grid counters and the main-grid cursor are untouched, and the
polyrhythm audio time advances by exactly
`(60 / bpm × numerator) / crossBeats`. -/
theorem advancePoly_eq (s : TempoAgentState) :
    (advancePolyrhythmNote s).config = s.config ∧
    (advancePolyrhythmNote s).currentTick = s.currentTick ∧
    (advancePolyrhythmNote s).currentBeat = s.currentBeat ∧
    (advancePolyrhythmNote s).currentMeasure = s.currentMeasure ∧
    (advancePolyrhythmNote s).nextNoteTime = s.nextNoteTime ∧
    (advancePolyrhythmNote s).isActive = s.isActive ∧
    (advancePolyrhythmNote s).nextPolyNoteTime =
      s.nextPolyNoteTime +
        60 / s.config.bpm * (s.config.timeSignature.numerator : ℚ) /
          (s.config.polyrhythm.crossBeats : ℚ) := by
  simp only [advancePolyrhythmNote]
  split_ifs <;> exact ⟨rfl, rfl, rfl, rfl, rfl, rfl, rfl⟩

theorem iterate_poly (s : TempoAgentState) (j : ℕ) :
    ((advancePolyrhythmNote^[j]) s).config = s.config ∧
    ((advancePolyrhythmNote^[j]) s).nextPolyNoteTime =
      s.nextPolyNoteTime +
        j * (60 / s.config.bpm * (s.config.timeSignature.numerator : ℚ) /
          (s.config.polyrhythm.crossBeats : ℚ)) := by
  induction j with
  | zero => simp
  | succ j ih =>
    obtain ⟨ic, it⟩ := ih
    rw [Function.iterate_succ_apply']
    obtain ⟨a1, _, _, _, _, _, a7⟩ := advancePoly_eq ((advancePolyrhythmNote^[j]) s)
    refine ⟨by rw [a1, ic], ?_⟩
    rw [a7, ic, it]
    push_cast
    ring

/-! ### Lemmas about the remaining public operations -/

theorem exceptState_setBPM (b : ℚ) (s : TempoAgentState) :
    exceptState (setBPM b) s =
      if b < 30 ∨ b > 300 then s
      else { s with config := { s.config with bpm := b } } := by
  unfold exceptState setBPM
  split_ifs <;> rfl

theorem exceptState_setSubdivision (n : ℤ) (s : TempoAgentState) :
    exceptState (setSubdivision n) s =
      if n < 1 ∨ n > 8 then s
      else { s with config := { s.config with subdivision := n } } := by
  unfold exceptState setSubdivision
  split_ifs <;> rfl

theorem setPolyrhythm_proj (p : PolyrhythmPatch) (now : ℚ) (s : TempoAgentState) :
    (setPolyrhythm p now s).config.bpm = s.config.bpm ∧
    (setPolyrhythm p now s).config.timeSignature = s.config.timeSignature ∧
    (setPolyrhythm p now s).config.subdivision = s.config.subdivision ∧
    (setPolyrhythm p now s).config.tempoChanges = s.config.tempoChanges ∧
    (setPolyrhythm p now s).config.practiceRamping = s.config.practiceRamping ∧
    (setPolyrhythm p now s).currentTick = s.currentTick ∧
    (setPolyrhythm p now s).currentBeat = s.currentBeat ∧
    (setPolyrhythm p now s).currentMeasure = s.currentMeasure := by
  simp only [setPolyrhythm]
  split_ifs <;> exact ⟨rfl, rfl, rfl, rfl, rfl, rfl, rfl, rfl⟩

/-- `start` either leaves the counters alone (no-op and failure paths) or
resets them to measure 1, beat 0, tick 0; it never touches the config. -/
theorem start_fst_config (o : ClockOutcome) (now : ℚ) (s : TempoAgentState) :
    (start o now s).1.config = s.config ∧
    (((start o now s).1.currentTick = s.currentTick ∧
        (start o now s).1.currentBeat = s.currentBeat ∧
        (start o now s).1.currentMeasure = s.currentMeasure) ∨
      ((start o now s).1.currentTick = 0 ∧ (start o now s).1.currentBeat = 0 ∧
        (start o now s).1.currentMeasure = 1)) := by
  by_cases h1 : s.isInitialized
  · by_cases h2 : s.isActive
    · simp [start, h1, h2]
    · by_cases h3 : s.hasAudioContext
      · cases o <;> simp [start, initAudioContext, h1, h2, h3]
      · cases o <;> simp [start, initAudioContext, h1, h2, h3]
  · simp [start, h1]

theorem changesSigOK_of_eq {s t : TempoAgentState}
    (h : t.config.tempoChanges = s.config.tempoChanges) (hc : ChangesSigOK s) :
    ChangesSigOK t := by
  intro c hm
  rw [h] at hm
  exact hc c hm

theorem changesBPMOK_of_eq {s t : TempoAgentState}
    (h : t.config.tempoChanges = s.config.tempoChanges) (hc : ChangesBPMOK s) :
    ChangesBPMOK t := by
  intro c hm
  rw [h] at hm
  exact hc c hm

/-- The measure-boundary bookkeeping preserves the tick-counter invariant as
long as every registered change carries a valid signature. -/
theorem checkTempoChanges_tickInv (s : TempoAgentState)
    (hi : TickInv s) (hc : ChangesSigOK s) :
    TickInv (checkTempoChanges s) ∧ ChangesSigOK (checkTempoChanges s) := by
  have hP := checkTempoChanges_preserved s
  refine ⟨?_, changesSigOK_of_eq hP.1 hc⟩
  obtain ⟨t1, t2, t3, t4, t5⟩ := hi
  have hsub := hP.2.2.1
  have hmeas := hP.2.2.2.2.1
  rcases checkTempoChanges_sig_cases s with ⟨a, b, c⟩ | ⟨ch, hcm, ts, hts, a, b, c⟩
  · exact ⟨by omega, by rw [b, hsub]; omega, by omega, by rw [a, c]; omega, by omega⟩
  · have hnum : 1 ≤ ts.numerator := hc ch hcm ts hts
    exact ⟨by omega, by rw [b, hsub]; omega, by omega, by rw [a, c]; omega, by omega⟩

/-- Invariant induction for the tick counters: every guarded-reachable
state satisfies `TickInv` (and keeps its change list well-formed). -/
theorem guardedReachTick_inv (s0 s : TempoAgentState)
    (h0 : TickInv s0) (hc0 : ChangesSigOK s0)
    (h : GuardedReachTick s0 s) : TickInv s ∧ ChangesSigOK s := by
  induction h with
  | init => exact ⟨h0, hc0⟩
  | startOp s o now _ ih =>
    obtain ⟨hi, hc⟩ := ih
    obtain ⟨hcfg, hor⟩ := start_fst_config o now s
    obtain ⟨t1, t2, t3, t4, t5⟩ := hi
    have hsub : (start o now s).1.config.subdivision = s.config.subdivision := by rw [hcfg]
    have hnum : (start o now s).1.config.timeSignature.numerator =
        s.config.timeSignature.numerator := by rw [hcfg]
    refine ⟨?_, changesSigOK_of_eq (by rw [hcfg]) hc⟩
    rcases hor with ⟨a, b, c⟩ | ⟨a, b, c⟩ <;>
      exact ⟨by omega, by rw [hsub]; omega, by omega, by rw [hnum]; omega, by omega⟩
  | stopOp s _ ih => exact ih
  | setBPMOp s b _ ih =>
    rw [exceptState_setBPM]
    split_ifs <;> exact ih
  | setTimeSignatureOp s ts hts _ ih =>
    obtain ⟨hi, hc⟩ := ih
    obtain ⟨t1, t2, t3, t4, t5⟩ := hi
    exact ⟨⟨le_refl 0, lt_of_le_of_lt t1 t2, le_refl 0,
      lt_of_lt_of_le zero_lt_one hts, t5⟩, changesSigOK_of_eq rfl hc⟩
  | setSubdivisionOp s n hn _ ih =>
    obtain ⟨hi, hc⟩ := ih
    rw [exceptState_setSubdivision]
    split_ifs with hv
    · exact ⟨hi, hc⟩
    · obtain ⟨t1, t2, t3, t4, t5⟩ := hi
      exact ⟨⟨t1, hn, t3, t4, t5⟩, changesSigOK_of_eq rfl hc⟩
  | setPolyrhythmOp s p now _ ih =>
    obtain ⟨hi, hc⟩ := ih
    obtain ⟨p1, p2, p3, p4, p5, p6, p7, p8⟩ := setPolyrhythm_proj p now s
    obtain ⟨t1, t2, t3, t4, t5⟩ := hi
    have hnum : (setPolyrhythm p now s).config.timeSignature.numerator =
        s.config.timeSignature.numerator := by rw [p2]
    refine ⟨⟨by omega, by rw [p3]; omega, by omega, by rw [hnum]; omega, by omega⟩,
      changesSigOK_of_eq p4 hc⟩
  | addTempoChangeOp s c hg _ ih =>
    obtain ⟨hi, hc⟩ := ih
    refine ⟨hi, ?_⟩
    intro c2 hmem
    simp only [addTempoChange] at hmem
    rw [mem_sortByMeasure] at hmem
    rcases List.mem_append.mp hmem with hmem | hmem
    · exact hc c2 (List.mem_filter.mp hmem).1
    · rw [List.mem_singleton] at hmem
      subst hmem
      exact hg
  | removeTempoChangeOp s m _ ih =>
    obtain ⟨hi, hc⟩ := ih
    refine ⟨hi, ?_⟩
    intro c2 hmem
    simp only [removeTempoChange] at hmem
    exact hc c2 (List.mem_filter.mp hmem).1
  | setPracticeRampingOp s p _ ih => exact ih
  | startPracticeRampingOp s _ ih =>
    unfold startPracticeRamping
    split_ifs <;> exact ih
  | schedulerStepOp s hact _ ih =>
    obtain ⟨hi, hc⟩ := ih
    have hmid : TickInv (scheduleNote s.nextNoteTime s).1 ∧
        ChangesSigOK (scheduleNote s.nextNoteTime s).1 := by
      rw [scheduleNote_fst]
      split_ifs with hbd
      · exact checkTempoChanges_tickInv s hi hc
      · exact ⟨hi, hc⟩
    refine ⟨advanceNote_tickInv _ hmid.1, ?_⟩
    exact changesSigOK_of_eq
      (by rw [show tickStep s = advanceNote (scheduleNote s.nextNoteTime s).1 from rfl,
              advanceNote_config]) hmid.2
  | polyStepOp s hact _ ih =>
    obtain ⟨hi, hc⟩ := ih
    obtain ⟨a1, a2, a3, a4, _, _, _⟩ := advancePoly_eq s
    obtain ⟨t1, t2, t3, t4, t5⟩ := hi
    have hnum : (advancePolyrhythmNote s).config.timeSignature.numerator =
        s.config.timeSignature.numerator := by rw [a1]
    have hsub : (advancePolyrhythmNote s).config.subdivision = s.config.subdivision := by
      rw [a1]
    refine ⟨⟨by omega, by rw [hsub]; omega, by omega, by rw [hnum]; omega, by omega⟩,
      changesSigOK_of_eq (by rw [a1]) hc⟩

/-- Invariant induction for the BPM range: every guarded-reachable state
keeps `bpm ∈ [30, 300]` (together with the config conditions that make the
invariant inductive). -/
theorem guardedReachBPM_inv (s0 s : TempoAgentState)
    (h0 : BPMInv s0) (h : GuardedReachBPM s0 s) : BPMInv s := by
  induction h with
  | init => exact h0
  | startOp s o now _ ih =>
    obtain ⟨b1, b2, b3, b4⟩ := ih
    have hcfg := (start_fst_config o now s).1
    exact ⟨by rw [hcfg]; exact b1, by rw [hcfg]; exact b2, by rw [hcfg]; exact b3,
      changesBPMOK_of_eq (by rw [hcfg]) b4⟩
  | stopOp s _ ih => exact ih
  | setBPMOp s b _ ih =>
    rw [exceptState_setBPM]
    split_ifs with hv
    · exact ih
    · obtain ⟨b1, b2, b3, b4⟩ := ih
      push_neg at hv
      exact ⟨hv.1, hv.2, b3, b4⟩
  | setTimeSignatureOp s ts _ ih => exact ih
  | setSubdivisionOp s n _ ih =>
    rw [exceptState_setSubdivision]
    split_ifs <;> exact ih
  | setPolyrhythmOp s p now _ ih =>
    obtain ⟨b1, b2, b3, b4⟩ := ih
    obtain ⟨p1, p2, p3, p4, p5, p6, p7, p8⟩ := setPolyrhythm_proj p now s
    exact ⟨by rw [p1]; exact b1, by rw [p1]; exact b2, by rw [p5]; exact b3,
      changesBPMOK_of_eq p4 b4⟩
  | addTempoChangeOp s c hg _ ih =>
    obtain ⟨b1, b2, b3, b4⟩ := ih
    refine ⟨b1, b2, b3, ?_⟩
    intro c2 hmem
    simp only [addTempoChange] at hmem
    rw [mem_sortByMeasure] at hmem
    rcases List.mem_append.mp hmem with hmem | hmem
    · exact b4 c2 (List.mem_filter.mp hmem).1
    · rw [List.mem_singleton] at hmem
      subst hmem
      exact hg
  | removeTempoChangeOp s m _ ih =>
    obtain ⟨b1, b2, b3, b4⟩ := ih
    refine ⟨b1, b2, b3, ?_⟩
    intro c2 hmem
    simp only [removeTempoChange] at hmem
    exact b4 c2 (List.mem_filter.mp hmem).1
  | setPracticeRampingOp s p hg _ ih =>
    obtain ⟨b1, b2, b3, b4⟩ := ih
    exact ⟨b1, b2, hg, b4⟩
  | startPracticeRampingOp s _ ih =>
    obtain ⟨b1, b2, b3, b4⟩ := ih
    unfold startPracticeRamping
    split_ifs with he
    · exact ⟨b3.1, b3.2.1, b3, b4⟩
    · exact ⟨b1, b2, b3, b4⟩
  | schedulerStepOp s hact _ ih =>
    obtain ⟨b1, b2, b3, b4⟩ := ih
    have hmid : 30 ≤ (scheduleNote s.nextNoteTime s).1.config.bpm ∧
        (scheduleNote s.nextNoteTime s).1.config.bpm ≤ 300 := by
      rw [scheduleNote_fst]
      split_ifs with hbd
      · exact checkTempoChanges_bpm s b3 b4 b1 b2
      · exact ⟨b1, b2⟩
    have hmidcfg : (scheduleNote s.nextNoteTime s).1.config.practiceRamping =
          s.config.practiceRamping ∧
        (scheduleNote s.nextNoteTime s).1.config.tempoChanges = s.config.tempoChanges := by
      rw [scheduleNote_fst]
      split_ifs with hbd
      · exact ⟨(checkTempoChanges_preserved s).2.1, (checkTempoChanges_preserved s).1⟩
      · exact ⟨rfl, rfl⟩
    have hstep : tickStep s = advanceNote (scheduleNote s.nextNoteTime s).1 := rfl
    have hcfg := advanceNote_config (scheduleNote s.nextNoteTime s).1
    refine ⟨?_, ?_, ?_, ?_⟩
    · rw [hstep, hcfg]; exact hmid.1
    · rw [hstep, hcfg]; exact hmid.2
    · rw [hstep, hcfg, hmidcfg.1]; exact b3
    · exact changesBPMOK_of_eq (by rw [hstep, hcfg, hmidcfg.2]) b4
  | polyStepOp s hact _ ih =>
    obtain ⟨b1, b2, b3, b4⟩ := ih
    have a1 := (advancePoly_eq s).1
    exact ⟨by rw [a1]; exact b1, by rw [a1]; exact b2, by rw [a1]; exact b3,
      changesBPMOK_of_eq (by rw [a1]) b4⟩

/-- A scheduler step never touches the change list, the ramping config or
the subdivision. -/
theorem tickStep_cfgFixed (s : TempoAgentState) :
    (tickStep s).config.tempoChanges = s.config.tempoChanges ∧
    (tickStep s).config.practiceRamping = s.config.practiceRamping ∧
    (tickStep s).config.subdivision = s.config.subdivision := by
  have hstep : tickStep s = advanceNote (scheduleNote s.nextNoteTime s).1 := rfl
  have hcfg := advanceNote_config (scheduleNote s.nextNoteTime s).1
  have hP := checkTempoChanges_preserved s
  refine ⟨?_, ?_, ?_⟩ <;> rw [hstep, hcfg, scheduleNote_fst] <;> split_ifs with hbd
  · exact hP.1
  · rfl
  · exact hP.2.1
  · rfl
  · exact hP.2.2.1
  · rfl

/-- `rampBPM` is a no-op once the BPM has reached the target. -/
theorem rampBPM_at_target (r : PracticeRamping) (m : ℤ) (b : ℚ)
    (hb : b = r.targetBPM) : rampBPM r m b = b := by
  unfold rampBPM
  split_ifs with h1 h2 h3
  · exact absurd (hb ▸ h2.2) (lt_irrefl _)
  · exact absurd (hb ▸ h3.2) (lt_irrefl _)
  · rfl
  · rfl

/-- `checkTempoChanges` on a state whose registered change for the current
measure is gradual: the transition data is computed and stored in
`gradualChange` — and nothing else happens to that field's value. -/
theorem checkTempoChanges_gradual_store (s : TempoAgentState) (c : TempoChange)
    (hfind : s.config.tempoChanges.find? (fun c2 => c2.measure == s.currentMeasure) = some c)
    (hty : c.type = TempoChangeType.gradual) :
    (checkTempoChanges s).gradualChange =
      some ⟨c.measure, (c.measure : ℚ) + c.duration, s.config.bpm, c.targetBPM,
            (c.targetBPM - s.config.bpm) / c.duration⟩ := by
  have happ : applyTempoChange c s = startGradualTempoChange c s := by
    unfold applyTempoChange
    rw [hty]
  simp only [checkTempoChanges, hfind, happ]
  rw [rampLayer_eq]
  simp [startGradualTempoChange]

/-! ### Claim C4 — `setBPM` contract -/

/-- C4 (confirmed): `setBPM(b)` throws `InvalidParameterError` iff `b < 30`
or `b > 300`; a throw leaves the state unchanged (the embedding of a
throw-before-mutation setter); on success only `config.bpm` is rewritten,
and the whole cursor and the rest of the config are untouched. -/
theorem setBPM_contract (b : ℚ) (s : TempoAgentState) :
    (setBPM b s = .error TAError.invalidBPM ↔ (b < 30 ∨ 300 < b)) ∧
    (∀ t, setBPM b s = .ok t →
      t.config.bpm = b ∧ t.config.timeSignature = s.config.timeSignature ∧
      t.config.subdivision = s.config.subdivision ∧
      t.config.polyrhythm = s.config.polyrhythm ∧
      t.config.tempoChanges = s.config.tempoChanges ∧
      t.config.practiceRamping = s.config.practiceRamping ∧
      t.currentMeasure = s.currentMeasure ∧ t.currentBeat = s.currentBeat ∧
      t.currentTick = s.currentTick ∧ t.nextNoteTime = s.nextNoteTime ∧
      t.nextPolyNoteTime = s.nextPolyNoteTime ∧ t.currentPolyBeat = s.currentPolyBeat ∧
      t.isActive = s.isActive) ∧
    (30 ≤ b → b ≤ 300 →
      setBPM b s = .ok { s with config := { s.config with bpm := b } }) := by
  by_cases hv : b < 30 ∨ b > 300
  · refine ⟨iff_of_true (by simp only [setBPM]; rw [if_pos hv]) hv, ?_, ?_⟩
    · intro t ht
      simp only [setBPM] at ht
      rw [if_pos hv] at ht
      exact absurd ht (by simp)
    · intro h1 h2
      rcases hv with hv | hv <;> linarith
  · refine ⟨iff_of_false (by simp only [setBPM]; rw [if_neg hv]; simp) hv, ?_, ?_⟩
    · intro t ht
      simp only [setBPM] at ht
      rw [if_neg hv] at ht
      have ht2 := Except.ok.inj ht
      subst ht2
      exact ⟨rfl, rfl, rfl, rfl, rfl, rfl, rfl, rfl, rfl, rfl, rfl, rfl, rfl⟩
    · intro h1 h2
      simp only [setBPM]
      rw [if_neg hv]

/-- Witness for C4 at the boundary inputs of spec property P4. -/
theorem setBPM_contract_witness :
    setBPM 29 initState = .error TAError.invalidBPM ∧
    setBPM 301 initState = .error TAError.invalidBPM ∧
    setBPM 30 initState = .ok { initState with config := { initState.config with bpm := 30 } } ∧
    setBPM 300 initState = .ok { initState with config := { initState.config with bpm := 300 } } :=
  ⟨(setBPM_contract 29 initState).1.mpr (Or.inl (by norm_num)),
   (setBPM_contract 301 initState).1.mpr (Or.inr (by norm_num)),
   (setBPM_contract 30 initState).2.2 (by norm_num) (by norm_num),
   (setBPM_contract 300 initState).2.2 (by norm_num) (by norm_num)⟩

/-! ### Claim C5 — `setTimeSignature` contract -/

/-- C5 counterexample: `setTimeSignature({numerator: 0, denominator: 4})` is
not rejected — the invalid signature is stored and the state is mutated,
contradicting the claimed `InvalidParameterError` on non-positive
numerators. -/
theorem setTimeSignature_no_validation :
    (setTimeSignature ⟨0, 4⟩ initState).config.timeSignature = ⟨0, 4⟩ ∧
    setTimeSignature ⟨0, 4⟩ initState ≠ initState := by
  refine ⟨rfl, fun h => ?_⟩
  have h2 := congrArg (fun t => t.config.timeSignature.numerator) h
  have h3 : (0 : ℤ) = 4 := h2
  norm_num at h3

/-- C5 (amended): `setTimeSignature` performs no validation and never
throws: for every argument, valid or not, it stores the signature and
resets `currentBeat` and `currentTick` to 0, leaving everything else
unchanged. -/
theorem setTimeSignature_contract (ts : TimeSignature) (s : TempoAgentState) :
    (setTimeSignature ts s).config.timeSignature = ts ∧
    (setTimeSignature ts s).currentBeat = 0 ∧
    (setTimeSignature ts s).currentTick = 0 ∧
    (setTimeSignature ts s).currentMeasure = s.currentMeasure ∧
    (setTimeSignature ts s).config.bpm = s.config.bpm ∧
    (setTimeSignature ts s).config.subdivision = s.config.subdivision ∧
    (setTimeSignature ts s).config.tempoChanges = s.config.tempoChanges ∧
    (setTimeSignature ts s).config.practiceRamping = s.config.practiceRamping ∧
    (setTimeSignature ts s).config.polyrhythm = s.config.polyrhythm ∧
    (setTimeSignature ts s).nextNoteTime = s.nextNoteTime ∧
    (setTimeSignature ts s).isActive = s.isActive :=
  ⟨rfl, rfl, rfl, rfl, rfl, rfl, rfl, rfl, rfl, rfl, rfl⟩

/-! ### Claim C6 — `stop` contract -/

/-- C6 counterexample: after three scheduler ticks (beat 3 of measure 1),
`stop()` leaves `currentBeat = 3` — the Cursor is not reset or zeroed at
`stop`, contradicting the claim. -/
theorem stop_does_not_reset_cursor :
    (stop c6RunState).currentBeat = 3 ∧ (stop c6RunState).currentBeat ≠ 0 := by
  constructor
  · decide
  · decide

/-- C6 (amended): `stop()` cancels the scheduling loop and is idempotent
(a second `stop`, or a `stop` while not running, changes nothing), but the
Cursor is **not** reset: every counter and audio-time field keeps its
pre-stop value.  The Cursor is reset to measure 1, beat 0, tick 0 (at the
supplied clock time) by the next successful `start()`. -/
theorem stop_contract (s : TempoAgentState) :
    (stop s).isActive = false ∧
    (stop s).schedulerRunning = false ∧
    (stop s).currentMeasure = s.currentMeasure ∧
    (stop s).currentBeat = s.currentBeat ∧
    (stop s).currentTick = s.currentTick ∧
    (stop s).nextNoteTime = s.nextNoteTime ∧
    (stop s).nextPolyNoteTime = s.nextPolyNoteTime ∧
    (stop s).currentPolyBeat = s.currentPolyBeat ∧
    (stop s).config = s.config ∧
    stop (stop s) = stop s ∧
    (s.isActive = false → s.schedulerRunning = false → stop s = s) ∧
    (∀ o now t, start o now (stop s) = (t, none) →
      t.currentMeasure = 1 ∧ t.currentBeat = 0 ∧ t.currentTick = 0 ∧
      t.currentPolyBeat = 0 ∧ t.nextNoteTime = now ∧ t.isActive = true) := by
  refine ⟨rfl, rfl, rfl, rfl, rfl, rfl, rfl, rfl, rfl, rfl, ?_, ?_⟩
  · intro h1 h2
    calc stop s = { s with isActive := s.isActive,
                           schedulerRunning := s.schedulerRunning } := by rw [h1, h2]; rfl
    _ = s := rfl
  · rintro o now t h
    have hfst : (start o now (stop s)).1 = t := congrArg Prod.fst h
    have hsnd : (start o now (stop s)).2 = none := congrArg Prod.snd h
    subst hfst
    by_cases hinit : s.isInitialized
    · by_cases hctx : s.hasAudioContext
      · cases o <;> simp_all [start, initAudioContext, stop]
      · cases o <;> simp_all [start, initAudioContext, stop]
    · simp_all [start, stop]

/-- Witness for C6 at a concrete state: `stop` on a fresh stopped agent is
a no-op, and a subsequent successful `start` resets the Cursor. -/
theorem stop_contract_witness :
    stop initState = initState ∧
    ((start ClockOutcome.ok 0 (stop initState)).1.currentMeasure = 1 ∧
     (start ClockOutcome.ok 0 (stop initState)).1.currentBeat = 0 ∧
     (start ClockOutcome.ok 0 (stop initState)).1.currentTick = 0 ∧
     (start ClockOutcome.ok 0 (stop initState)).1.currentPolyBeat = 0 ∧
     (start ClockOutcome.ok 0 (stop initState)).1.nextNoteTime = 0 ∧
     (start ClockOutcome.ok 0 (stop initState)).1.isActive = true) :=
  ⟨(stop_contract initState).2.2.2.2.2.2.2.2.2.2.1 rfl rfl,
   (stop_contract initState).2.2.2.2.2.2.2.2.2.2.2 ClockOutcome.ok 0
     (start ClockOutcome.ok 0 (stop initState)).1 rfl⟩

/-! ### Claim C10 — failed `start` is side-effect free -/

/-- C10 (confirmed): if the scheduler is stopped with no audio context yet
and acquiring the audio clock fails (either `new AudioContext()` or
`resume()` throws), `start()` surfaces the error, the scheduler stays
stopped, the Cursor fields and the entire config are exactly as before the
call, and a subsequent `start()` with a working clock succeeds. -/
theorem start_failure_contract (s : TempoAgentState) (o : ClockOutcome) (now now2 : ℚ)
    (hi : s.isInitialized = true) (ha : s.isActive = false)
    (hc : s.hasAudioContext = false) (ho : o ≠ ClockOutcome.ok) :
    (start o now s).2 = some TAError.audioContextInitFailed ∧
    (start o now s).1.isActive = false ∧
    (start o now s).1.config = s.config ∧
    (start o now s).1.nextNoteTime = s.nextNoteTime ∧
    (start o now s).1.nextPolyNoteTime = s.nextPolyNoteTime ∧
    (start o now s).1.currentMeasure = s.currentMeasure ∧
    (start o now s).1.currentBeat = s.currentBeat ∧
    (start o now s).1.currentTick = s.currentTick ∧
    (start o now s).1.currentPolyBeat = s.currentPolyBeat ∧
    (start ClockOutcome.ok now2 (start o now s).1).2 = none ∧
    (start ClockOutcome.ok now2 (start o now s).1).1.isActive = true := by
  cases o with
  | ok => exact absurd rfl ho
  | createFails => simp [start, initAudioContext, hi, ha, hc]
  | resumeFails => simp [start, initAudioContext, hi, ha, hc]

/-- Witness for C10: a fresh initialized agent whose clock acquisition
fails. -/
theorem start_failure_contract_witness :
    (start ClockOutcome.createFails 0 initState).2 = some TAError.audioContextInitFailed ∧
    (start ClockOutcome.createFails 0 initState).1.isActive = false ∧
    (start ClockOutcome.createFails 0 initState).1.config = initState.config ∧
    (start ClockOutcome.createFails 0 initState).1.nextNoteTime = initState.nextNoteTime ∧
    (start ClockOutcome.createFails 0 initState).1.nextPolyNoteTime = initState.nextPolyNoteTime ∧
    (start ClockOutcome.createFails 0 initState).1.currentMeasure = initState.currentMeasure ∧
    (start ClockOutcome.createFails 0 initState).1.currentBeat = initState.currentBeat ∧
    (start ClockOutcome.createFails 0 initState).1.currentTick = initState.currentTick ∧
    (start ClockOutcome.createFails 0 initState).1.currentPolyBeat = initState.currentPolyBeat ∧
    (start ClockOutcome.ok 0 (start ClockOutcome.createFails 0 initState).1).2 = none ∧
    (start ClockOutcome.ok 0 (start ClockOutcome.createFails 0 initState).1).1.isActive = true :=
  start_failure_contract initState ClockOutcome.createFails 0 0 rfl rfl rfl (by decide)

/-! ### Claim C2 — tick counter invariants -/

/-- C2 counterexample: from a fresh agent, set subdivision 4, start, run
three scheduler ticks (`currentTick = 3`), then call `setSubdivision(2)` —
a call the code accepts without touching the counters.  Immediately after
the setter returns, `currentTick = 3 ≥ subdivision = 2`, violating
`currentTick < subdivision`. -/
theorem tick_invariant_violated_by_setSubdivision :
    c2CexState.currentTick = 3 ∧ c2CexState.config.subdivision = 2 ∧
    ¬ c2CexState.currentTick < c2CexState.config.subdivision := by
  refine ⟨by decide, by decide, by decide⟩

/-- C2 (amended): the counter invariants `0 ≤ currentTick < subdivision`,
`0 ≤ currentBeat < numerator`, `currentMeasure ≥ 1` hold in every state
reachable by public operations and scheduler steps, **provided**
`setTimeSignature` is only called with a positive numerator,
`setSubdivision n` only with `n` above the current tick, and every
registered tempo change's attached signature (if any) has a positive
numerator.  (Without those guards the invariant fails: `setTimeSignature`
accepts non-positive numerators, and `setSubdivision` below the current
tick leaves `currentTick ≥ subdivision` until the next tick.) -/
theorem tick_counter_invariants (s0 s : TempoAgentState)
    (h0 : TickInv s0) (hc0 : ChangesSigOK s0) (h : GuardedReachTick s0 s) :
    0 ≤ s.currentTick ∧ s.currentTick < s.config.subdivision ∧
    0 ≤ s.currentBeat ∧ s.currentBeat < s.config.timeSignature.numerator ∧
    1 ≤ s.currentMeasure :=
  (guardedReachTick_inv s0 s h0 hc0 h).1

/-- Witness for C2: the invariants hold after `start` and one scheduler
step from a fresh agent. -/
theorem tick_counter_invariants_witness :
    0 ≤ (tickStep (start ClockOutcome.ok 0 initState).1).currentTick ∧
    (tickStep (start ClockOutcome.ok 0 initState).1).currentTick <
      (tickStep (start ClockOutcome.ok 0 initState).1).config.subdivision ∧
    0 ≤ (tickStep (start ClockOutcome.ok 0 initState).1).currentBeat ∧
    (tickStep (start ClockOutcome.ok 0 initState).1).currentBeat <
      (tickStep (start ClockOutcome.ok 0 initState).1).config.timeSignature.numerator ∧
    1 ≤ (tickStep (start ClockOutcome.ok 0 initState).1).currentMeasure :=
  tick_counter_invariants initState _
    ⟨by decide, by decide, by decide, by decide, by decide⟩
    (fun c hc => absurd hc (List.not_mem_nil c))
    (GuardedReachTick.schedulerStepOp _ (by decide)
      (GuardedReachTick.startOp _ ClockOutcome.ok 0 GuardedReachTick.init))

/-! ### Claim C3 — BPM range invariant -/

/-- C3 counterexample: `setPracticeRamping({enabled: true, startBPM: 0,
...})` followed by `startPracticeRamping()` sets the stored `bpm` to `0` —
outside `[30, 300]` — because neither operation validates its BPM values. -/
theorem bpm_range_violated_by_ramping :
    c3CexState.config.bpm = 0 ∧ ¬ 30 ≤ c3CexState.config.bpm := by
  refine ⟨by decide, by decide⟩

/-- C3 (amended): starting from a state whose BPM is in `[30, 300]` (with a
well-formed ramping config and registered targets), every sequence of
public operations and scheduler steps keeps `bpm ∈ [30, 300]`, **provided**
every `addTempoChange` target BPM lies in `[30, 300]` and every
`setPracticeRamping` call leaves `startBPM`/`targetBPM` in `[30, 300]` with
`incrementBPM ≥ 0`.  (Without the proviso the range is violated, e.g. by
`startPracticeRamping` with `startBPM = 0`.) -/
theorem bpm_range_invariant (s0 s : TempoAgentState)
    (h0 : BPMInv s0) (h : GuardedReachBPM s0 s) :
    30 ≤ s.config.bpm ∧ s.config.bpm ≤ 300 :=
  ⟨(guardedReachBPM_inv s0 s h0 h).1, (guardedReachBPM_inv s0 s h0 h).2.1⟩

/-- Witness for C3: BPM stays in range across `startPracticeRamping` on a
fresh (ramping-disabled) agent. -/
theorem bpm_range_invariant_witness :
    30 ≤ (startPracticeRamping initState).config.bpm ∧
    (startPracticeRamping initState).config.bpm ≤ 300 :=
  bpm_range_invariant initState _
    ⟨by decide, by decide, ⟨by decide, by decide, by decide, by decide, by decide⟩,
     fun c hc => absurd hc (List.not_mem_nil c)⟩
    (GuardedReachBPM.startPracticeRampingOp _ GuardedReachBPM.init)

/-! ### Claim C7 — measure boundary detection -/

/-- C7 (confirmed): an emitted main-grid event is flagged `measure` iff
`currentBeat = 0 ∧ currentTick = 0` at emission (for every state); and
along a run started at a measure boundary with fixed numerator `n` and
subdivision `d` (no sudden changes registered), the `k`-th scheduled tick
is a `measure` event iff `n·d ∣ k`, so every window of `n·d` consecutive
scheduled ticks contains exactly one `measure` event. -/
theorem measure_boundary_detection (s : TempoAgentState)
    (hg : ∀ c ∈ s.config.tempoChanges, c.type = TempoChangeType.gradual)
    (hb : s.currentBeat = 0) (ht : s.currentTick = 0)
    (hN : 1 ≤ s.config.timeSignature.numerator) (hD : 1 ≤ s.config.subdivision) :
    (∀ t : TempoAgentState, (tickEvent t).type = BeatEventType.measure ↔
        (t.currentBeat = 0 ∧ t.currentTick = 0)) ∧
    (∀ k : ℕ, (tickEvent ((tickStep^[k]) s)).type = BeatEventType.measure ↔
        s.config.timeSignature.numerator.toNat * s.config.subdivision.toNat ∣ k) ∧
    (∀ a : ℕ, ∃! k : ℕ,
        (a ≤ k ∧ k < a + s.config.timeSignature.numerator.toNat * s.config.subdivision.toNat) ∧
        (tickEvent ((tickStep^[k]) s)).type = BeatEventType.measure) := by
  have hdpos : 0 < s.config.subdivision.toNat := by omega
  have hnpos : 0 < s.config.timeSignature.numerator.toNat := by omega
  have hkey : ∀ k : ℕ, (tickEvent ((tickStep^[k]) s)).type = BeatEventType.measure ↔
      s.config.timeSignature.numerator.toNat * s.config.subdivision.toNat ∣ k := by
    intro k
    obtain ⟨i1, i2, i3, i4, i5, i6⟩ := iterate_counters s hg hb ht hN hD k
    rw [tickEvent_measure_iff, i2, i1]
    constructor
    · rintro ⟨hbeat, htick⟩
      have hm1 : k % s.config.subdivision.toNat = 0 := by omega
      have hm2 : k / s.config.subdivision.toNat % s.config.timeSignature.numerator.toNat = 0 := by
        omega
      have hdvd := (boundary_iff_dvd _ _ k hdpos).mp ⟨hm1, hm2⟩
      rwa [Nat.mul_comm] at hdvd
    · intro hdvd
      have hdvd2 := (boundary_iff_dvd s.config.subdivision.toNat
        s.config.timeSignature.numerator.toNat k hdpos).mpr (by rwa [Nat.mul_comm] at hdvd)
      exact ⟨by omega, by omega⟩
  refine ⟨fun t => tickEvent_measure_iff t, hkey, fun a => ?_⟩
  have hP : 0 < s.config.timeSignature.numerator.toNat * s.config.subdivision.toNat :=
    Nat.mul_pos hnpos hdpos
  obtain ⟨k0, ⟨hk0w, hk0d⟩, huniq⟩ := exists_unique_dvd_window
    (s.config.timeSignature.numerator.toNat * s.config.subdivision.toNat) a hP
  refine ⟨k0, ⟨hk0w, (hkey k0).mpr hk0d⟩, ?_⟩
  rintro y ⟨hyw, hyt⟩
  exact huniq y ⟨hyw, (hkey y).mp hyt⟩

/-- Witness for C7 on a fresh 4/4, subdivision-1 agent: tick 8 is a
`measure` event, tick 2 is not. -/
theorem measure_boundary_detection_witness :
    (tickEvent ((tickStep^[8]) initState)).type = BeatEventType.measure ∧
    (tickEvent ((tickStep^[2]) initState)).type ≠ BeatEventType.measure := by
  have h := measure_boundary_detection initState
    (fun c hc => absurd hc (List.not_mem_nil c)) rfl rfl (by decide) (by decide)
  refine ⟨(h.2.1 8).mpr (by decide), fun hx => ?_⟩
  exact absurd ((h.2.1 2).mp hx) (by decide)

/-! ### Claim C1 — gradual tempo change is never applied (code bug) -/

/-- Along the P6 run, the BPM, the change list and the (disabled) ramping
flag never move: the only mutation a gradual change performs is the
`gradualChange` dead store. -/
theorem c1_run_invariant (k : ℕ) :
    ((tickStep^[k]) c1State).config.bpm = 100 ∧
    ((tickStep^[k]) c1State).config.tempoChanges = [c1Change] ∧
    ((tickStep^[k]) c1State).config.practiceRamping.enabled = false := by
  induction k with
  | zero => exact ⟨by decide, by decide, by decide⟩
  | succ k ih =>
    obtain ⟨hb, hc, he⟩ := ih
    have hg : ∀ c ∈ ((tickStep^[k]) c1State).config.tempoChanges,
        c.type = TempoChangeType.gradual := by
      rw [hc]
      intro c hcm
      rw [List.mem_singleton] at hcm
      subst hcm
      rfl
    rw [Function.iterate_succ_apply']
    obtain ⟨hb2, hr2⟩ := tickStep_bpm_inert _ hg he
    obtain ⟨_, _, hch2, _⟩ := tickStep_grid _ hg
    exact ⟨by rw [hb2, hb], by rw [hch2, hc], by rw [hr2, he]⟩

/-- C1 (code bug): with the P6 gradual change
`{measure: 5, type: 'gradual', targetBPM: 140, duration: 4}` registered and
the scheduler started from the default BPM 100, the BPM never changes — it
is still 100 at every scheduler tick, in particular while `currentMeasure`
is 9 (tick 32) where the spec expects 140.  The boundary tick of measure 5
(tick 16) does compute and store the transition data
`{startMeasure: 5, endMeasure: 9, startBPM: 100, targetBPM: 140,
bpmIncrement: 10}` in `gradualChange`, but no code ever reads that field,
so the interpolation never happens. -/
theorem gradual_tempo_change_never_applied :
    (∀ k : ℕ, ((tickStep^[k]) c1State).config.bpm = 100) ∧
    ((tickStep^[32]) c1State).currentMeasure = 9 ∧
    ((tickStep^[17]) c1State).gradualChange = some ⟨5, 9, 100, 140, 10⟩ := by
  have hg0 : ∀ c ∈ c1State.config.tempoChanges, c.type = TempoChangeType.gradual := by
    have h : c1State.config.tempoChanges = [c1Change] := by decide
    rw [h]
    intro c hcm
    rw [List.mem_singleton] at hcm
    subst hcm
    rfl
  have hb0 : c1State.currentBeat = 0 := by decide
  have ht0 : c1State.currentTick = 0 := by decide
  have hN0 : 1 ≤ c1State.config.timeSignature.numerator := by decide
  have hD0 : 1 ≤ c1State.config.subdivision := by decide
  have hsubt : c1State.config.subdivision.toNat = 1 := by decide
  have hnumt : c1State.config.timeSignature.numerator.toNat = 4 := by decide
  have hm0 : c1State.currentMeasure = 1 := by decide
  refine ⟨fun k => (c1_run_invariant k).1, ?_, ?_⟩
  · have h32 := (iterate_counters c1State hg0 hb0 ht0 hN0 hD0 32).2.2.1
    rw [h32, hsubt, hnumt, hm0]
    norm_num
  · obtain ⟨i1, i2, i3, _, _, _⟩ := iterate_counters c1State hg0 hb0 ht0 hN0 hD0 16
    have htick : ((tickStep^[16]) c1State).currentTick = 0 := by
      rw [i1, hsubt]
      norm_num
    have hbeat : ((tickStep^[16]) c1State).currentBeat = 0 := by
      rw [i2, hsubt, hnumt]
      norm_num
    have hmeas : ((tickStep^[16]) c1State).currentMeasure = 5 := by
      rw [i3, hsubt, hnumt, hm0]
      norm_num
    obtain ⟨hbpm, hch, -⟩ := c1_run_invariant 16
    show ((tickStep^[16 + 1]) c1State).gradualChange = _
    rw [Function.iterate_succ_apply']
    have h1 : (tickStep ((tickStep^[16]) c1State)).gradualChange =
        (scheduleNote ((tickStep^[16]) c1State).nextNoteTime
          ((tickStep^[16]) c1State)).1.gradualChange :=
      (advanceNote_flags _).2.1
    rw [h1, scheduleNote_fst, if_pos ⟨hbeat, htick⟩]
    have hfind : ((tickStep^[16]) c1State).config.tempoChanges.find?
        (fun c2 => c2.measure == ((tickStep^[16]) c1State).currentMeasure) = some c1Change := by
      rw [hch]
      refine List.find?_cons_of_pos _ ?_
      rw [hmeas]
      decide
    rw [checkTempoChanges_gradual_store _ c1Change hfind rfl, hbpm]
    simp only [Option.some.injEq, GradualChangeInfo.mk.injEq, c1Change]
    norm_num

/-! ### Claim C8 — practice ramping scenario -/

/-- The Scenario C run never registers tempo changes and keeps the merged
ramping config fixed. -/
theorem c8_config_inv (k : ℕ) :
    ((tickStep^[k]) c8State).config.tempoChanges = [] ∧
    ((tickStep^[k]) c8State).config.practiceRamping = c8Ramping := by
  induction k with
  | zero => exact ⟨by decide, by decide⟩
  | succ k ih =>
    rw [Function.iterate_succ_apply']
    obtain ⟨f1, f2, _⟩ := tickStep_cfgFixed ((tickStep^[k]) c8State)
    exact ⟨by rw [f1, ih.1], by rw [f2, ih.2]⟩

/-- Once the Scenario C run has reached the target BPM 90, every further
scheduler step leaves the BPM at 90. -/
theorem c8_step_inv (s : TempoAgentState)
    (h1 : s.config.tempoChanges = []) (h2 : s.config.practiceRamping = c8Ramping)
    (h3 : s.config.bpm = 90) :
    (tickStep s).config.bpm = 90 := by
  have hstep : tickStep s = advanceNote (scheduleNote s.nextNoteTime s).1 := rfl
  have hcfg := advanceNote_config (scheduleNote s.nextNoteTime s).1
  rw [hstep, hcfg, scheduleNote_fst]
  split_ifs with hbd
  · unfold checkTempoChanges
    rw [h1]
    simp only [List.find?_nil]
    rw [rampLayer_eq]
    show (if s.config.practiceRamping.enabled = true then
        rampBPM s.config.practiceRamping s.currentMeasure s.config.bpm
      else s.config.bpm) = 90
    rw [h2, h3, if_pos (show c8Ramping.enabled = true from rfl)]
    exact rampBPM_at_target c8Ramping _ 90 rfl
  · exact h3

/-- BPM holds at 90 from scheduler tick 25 (the boundary tick of measure 7)
onward in the Scenario C run. -/
theorem c8_hold (j : ℕ) :
    ((tickStep^[j]) ((tickStep^[25]) c8State)).config.bpm = 90 := by
  induction j with
  | zero =>
    show ((tickStep^[25]) c8State).config.bpm = 90
    norm_num [c8State, rampPatch8, initState, defaultConfig, tickStep, scheduleNote,
      advanceNote, checkTempoChanges, checkPracticeRamping, applyTempoChange,
      setPracticeRamping, startPracticeRamping, mergeRamping, start, initAudioContext,
      Function.iterate_succ_apply, Function.iterate_zero_apply, List.find?]
  | succ j ih =>
    rw [Function.iterate_succ_apply']
    have hidx : (tickStep^[j]) ((tickStep^[25]) c8State) = (tickStep^[j + 25]) c8State :=
      (Function.iterate_add_apply tickStep j 25 c8State).symm
    rw [hidx] at ih ⊢
    exact c8_step_inv _ (c8_config_inv (j + 25)).1 (c8_config_inv (j + 25)).2 ih

/-- C8 (confirmed): in the Scenario C run — ramping
`{enabled: true, startBPM: 60, targetBPM: 90, incrementBPM: 10,
measureInterval: 2, direction: 'up'}`, `startPracticeRamping()`, then
`start()` — the BPM in effect during measures 1, 3, 5, 7 is 60, 70, 80, 90
respectively (steps only when the elapsed-measure count is a positive
multiple of 2, clamped at 90), and the BPM holds at 90 for every measure
from 7 on. -/
theorem practice_ramping_scenario :
    c8BPMInMeasure 1 = 60 ∧ c8BPMInMeasure 3 = 70 ∧ c8BPMInMeasure 5 = 80 ∧
    c8BPMInMeasure 7 = 90 ∧ ∀ m : ℕ, 7 ≤ m → c8BPMInMeasure m = 90 := by
  have htail : ∀ m : ℕ, 7 ≤ m → c8BPMInMeasure m = 90 := by
    intro m hm
    have harith : (m - 1) * 4 + 1 = 4 * (m - 7) + 25 := by omega
    show ((tickStep^[(m - 1) * 4 + 1]) c8State).config.bpm = 90
    rw [harith, Function.iterate_add_apply]
    exact c8_hold (4 * (m - 7))
  refine ⟨?_, ?_, ?_, htail 7 (le_refl 7), htail⟩ <;>
    norm_num [c8BPMInMeasure, c8State, rampPatch8, initState, defaultConfig, tickStep,
      scheduleNote, advanceNote, checkTempoChanges, checkPracticeRamping, applyTempoChange,
      setPracticeRamping, startPracticeRamping, mergeRamping, start, initAudioContext,
      Function.iterate_succ_apply, Function.iterate_zero_apply, List.find?]

/-- Witness for C8 beyond the plateau: measure 9 still runs at 90 BPM. -/
theorem practice_ramping_scenario_witness : c8BPMInMeasure 9 = 90 :=
  practice_ramping_scenario.2.2.2.2 9 (by norm_num)

/-! ### Claim C9 — polyrhythm independence -/

/-- C9 (confirmed): the polyrhythm grid advances by
`secondsPerPolyBeat = (60/bpm × numerator) / crossBeats` per cross-beat
without touching the main-grid counters or config; and in the P7 scenario
(4/4, subdivision 1, BPM 120, crossBeats 3, started at audio time 0) the
main grid schedules exactly its ticks 0..3 before the 2-second measure end
while the polyrhythm grid schedules exactly its cross-beats 0..2. -/
theorem polyrhythm_independence :
    (∀ s : TempoAgentState,
      (advancePolyrhythmNote s).nextPolyNoteTime =
        s.nextPolyNoteTime + 60 / s.config.bpm * (s.config.timeSignature.numerator : ℚ) /
          (s.config.polyrhythm.crossBeats : ℚ) ∧
      (advancePolyrhythmNote s).currentTick = s.currentTick ∧
      (advancePolyrhythmNote s).currentBeat = s.currentBeat ∧
      (advancePolyrhythmNote s).currentMeasure = s.currentMeasure ∧
      (advancePolyrhythmNote s).config = s.config) ∧
    (∀ k : ℕ, ((tickStep^[k]) c9State).nextNoteTime < 2 ↔ k < 4) ∧
    (∀ j : ℕ, ((advancePolyrhythmNote^[j]) c9State).nextPolyNoteTime < 2 ↔ j < 3) := by
  have h1 : c9State.config.tempoChanges = [] := by decide
  have h2 : c9State.config.practiceRamping.enabled = false := by decide
  have hbpm : c9State.config.bpm = 120 := by decide
  have hsub : c9State.config.subdivision = 1 := by decide
  have hnum : c9State.config.timeSignature.numerator = 4 := by decide
  have hcross : c9State.config.polyrhythm.crossBeats = 3 := by decide
  have ht0 : c9State.nextNoteTime = 0 := by decide
  have hp0 : c9State.nextPolyNoteTime = 0 := by decide
  refine ⟨?_, ?_, ?_⟩
  · intro s
    obtain ⟨a1, a2, a3, a4, a5, a6, a7⟩ := advancePoly_eq s
    exact ⟨a7, a2, a3, a4, a1⟩
  · intro k
    rw [(iterate_inert c9State h1 h2 k).2, ht0, hbpm, hsub, zero_add]
    rw [show (60 : ℚ) / 120 / ((1 : ℤ) : ℚ) = 1 / 2 by norm_num]
    constructor
    · intro h
      by_contra hk
      push_neg at hk
      have h4 : (4 : ℚ) ≤ (k : ℚ) := by exact_mod_cast hk
      linarith
    · intro h
      have h4 : (k : ℚ) < 4 := by exact_mod_cast h
      linarith
  · intro j
    rw [(iterate_poly c9State j).2, hp0, hbpm, hnum, hcross, zero_add]
    rw [show (60 : ℚ) / 120 * ((4 : ℤ) : ℚ) / ((3 : ℤ) : ℚ) = 2 / 3 by norm_num]
    constructor
    · intro h
      by_contra hk
      push_neg at hk
      have h4 : (3 : ℚ) ≤ (j : ℚ) := by exact_mod_cast hk
      linarith
    · intro h
      have h4 : (j : ℚ) < 3 := by exact_mod_cast h
      linarith

end Metronome
